import Mathlib

/-!
Verification of the layout-synthesis engine of the Network-topology-diagram
repository (src/hooks/useNetworkData.ts).  The TypeScript source is shallowly
embedded: JavaScript numbers are modelled as rationals (all arithmetic used by
the engine is exact on rationals), strings as Lean strings, optional JSON
fields as `Option`, and the single `try`/`catch` wrapper as an `Except` value.
-/

namespace NetTopo

/-- Does `pat` occur as a contiguous sublist of `s`? -/
def charsInfix (pat : List Char) : List Char → Bool
  | [] => pat.isEmpty
  | c :: cs => pat.isPrefixOf (c :: cs) || charsInfix pat cs

/-- JavaScript `s.includes(t)` (substring containment). -/
def jsIncludes (s t : String) : Bool := charsInfix t.data s.data

/-- JavaScript `s.endsWith(t)`. -/
def jsEndsWith (s t : String) : Bool := t.data.reverse.isPrefixOf s.data.reverse

/-- JavaScript truthiness of an optional string field (absent or empty is falsy). -/
def optTruthy : Option String → Bool
  | none => false
  | some s => s ≠ ""

/-- JavaScript `s.replace('_', ' ')` replaces only the first occurrence. -/
def replaceFirstUnderscoreAux : List Char → List Char
  | [] => []
  | c :: cs => if c = '_' then ' ' :: cs else c :: replaceFirstUnderscoreAux cs

def replaceFirstUnderscore (s : String) : String :=
  String.mk (replaceFirstUnderscoreAux s.data)

/-- JavaScript `Math.max` / `Math.min` on rationals, written with an explicit
comparison so concrete synthesis runs reduce inside the kernel. -/
def jsMax (a b : ℚ) : ℚ := if a ≤ b then b else a

def jsMin (a b : ℚ) : ℚ := if b ≤ a then b else a

/-- Diversion target: `string | string[]` in the JSON schema. -/
inductive DivTarget where
  | single : String → DivTarget
  | multi : List String → DivTarget
deriving DecidableEq, Repr

/-- Diversion rule (`DiversionConfig` in the source). -/
structure Diversion where
  target : DivTarget
  target_type : String
  traffic_type : String
  internet_type : Option String := none
  label : Option String := none
deriving DecidableEq, Repr

/-- A gateway/device interface entry. -/
structure NetInterface where
  name : String := ""
  type : Option String := none
  ip : String := ""
deriving DecidableEq, Repr

/-- A device declaration.  A device carrying an `interfaces` list is treated
as a sub-gateway by the synthesizer. -/
structure Device where
  name : String
  ip : String := ""
  interface : Option String := none
  interfaces : Option (List NetInterface) := none
  diversion : Option Diversion := none
deriving DecidableEq, Repr

/-- A gateway declaration. -/
structure Gateway where
  name : String
  ip : String := ""
  interfaces : Option (List NetInterface) := none
  diversion : Option Diversion := none
deriving DecidableEq, Repr

/-- A backbone group (`autonomous_systems` entry). -/
structure ASGroup where
  as_number : String
  network_type : Option String := none
  devices : List Device := []
deriving DecidableEq, Repr

/-- A private network.  The `gateway` field is optional at the JSON level; the
synthesizer dereferences it without a guard, which is the terminal-error path. -/
structure PrivateNetwork where
  subnet : String := ""
  gateway : Option Gateway := none
  devices : Option (List Device) := none
deriving DecidableEq, Repr

/-- The whole input declaration (`network-config.json` shape).  The private
map keeps insertion order, as `Object.entries` does for JSON objects. -/
structure NetworkConfig where
  autonomous_systems : List ASGroup := []
  privates : List (String × PrivateNetwork) := []
deriving DecidableEq, Repr

/-- An output node.  Only the payload fields that influence later control flow
or that the spec's claims mention are retained (`label`, `diversion` and the
CDN role flags are read back by later passes; the remaining `data` fields are
write-only constants). -/
structure Node where
  id : String
  type : String
  label : String
  diversion : Option Diversion := none
  isCdnOrigin : Bool := false
  isCdnEdge : Bool := false
  x : ℚ
  y : ℚ
  width : Option ℚ := none
  height : Option ℚ := none
  parentId : Option String := none
  extentParent : Bool := false
deriving DecidableEq, Repr

/-- An output edge, with the style subfields later passes readback or rewrite. -/
structure Edge where
  id : String
  source : String
  sourceHandle : Option String := none
  target : String
  targetHandle : Option String := none
  animated : Bool := false
  type : String := "bezier"
  label : Option String := none
  stroke : Option String := none
  strokeWidth : Option ℚ := none
  strokeDasharray : Option String := none
deriving DecidableEq, Repr

/-- `calculateMaxNetworkDepth` — recursive maximum nesting depth of a subnet
tree.  The source recurses with no guard and would diverge on a cyclic map;
the embedding takes explicit fuel and the synthesizer passes fuel exceeding
the number of declared networks, which bounds every terminating recursion of
the original.  The children map is kept generic in the key type. -/
def calculateMaxNetworkDepth {κ : Type} (fuel : ℕ) (networkName : κ)
    (childNetworksMap : κ → List κ) : ℕ :=
  match fuel with
  | 0 => 0
  | fuel + 1 =>
    match childNetworksMap networkName with
    | [] => 0
    | cs => cs.foldl
        (fun acc c => max acc (1 + calculateMaxNetworkDepth fuel c childNetworksMap)) 0

/-- `calculateGroupSize` — container sizing from device count, nesting flag,
nesting level, max subnet depth and the AS flag. -/
def calculateGroupSize (deviceCount : ℕ) (hasSubnetworks : Bool := false)
    (level : ℕ := 0) (maxSubnetDepth : ℕ := 0) (isAS : Bool := false) : ℚ × ℚ :=
  let baseWidth : ℚ := if isAS then 300 else 400
  let baseHeight : ℚ := if isAS then 250 else 400
  let devicesPerRow : ℕ := max 2 (min 4 deviceCount)
  let widthPerDevice : ℚ := if isAS then 130 else 180
  let heightPerDevice : ℚ := if isAS then 140 else 100
  -- Math.ceil(deviceCount / devicesPerRow) on naturals
  let rows : ℕ := (deviceCount + devicesPerRow - 1) / devicesPerRow
  let cols : ℕ := min devicesPerRow deviceCount
  let width0 : ℚ := jsMax baseWidth (((cols : ℚ) + 2) * widthPerDevice)
  let height0 : ℚ :=
    if isAS then jsMax baseHeight ((rows : ℚ) * heightPerDevice + 100)
    else jsMax baseHeight ((rows : ℚ) * heightPerDevice + 220)
  let width1 : ℚ :=
    if hasSubnetworks then jsMax (width0 * (12/10)) (if isAS then 500 else 600)
    else width0
  let height1 : ℚ :=
    if hasSubnetworks then
      let depthFactor : ℚ :=
        if isAS then 13/10 + (maxSubnetDepth : ℚ) * (2/10)
        else 14/10 + (maxSubnetDepth : ℚ) * (3/10)
      jsMax (height0 * depthFactor)
        ((if isAS then 350 else 600) + (maxSubnetDepth : ℚ) * 150)
    else height0
  if 0 < level then
    (width1 * jsMax (85/100) (1 - (level : ℚ) * (8/100)),
     height1 * jsMax (9/10) (1 - (level : ℚ) * (5/100)))
  else (width1, height1)

/-! ## Synthesis state

The hook accumulates into shared mutable lists and lookup maps from nested
closures; the embedding threads one state record through the passes.  JS
objects used as maps become association lists with latest-write-first lookup,
JS `Set`s become membership lists. -/

/-- A pending router diversion (`routerDiversions` entries). -/
structure RouterDiversion where
  routerId : String
  targetName : String
  diversion : Diversion
deriving DecidableEq, Repr

structure SynthState where
  nodes : List Node := []
  edges : List Edge := []
  handledExternalDiversionDevices : List String := []
  nodeIdMap : List (String × String) := []
  routerDiversions : List RouterDiversion := []
  routerIds : List String := []
  gatewayIdByNetwork : List (String × String) := []
deriving DecidableEq, Repr

/-- Object-property lookup: the most recent write wins. -/
def lookupStr (m : List (String × String)) (k : String) : Option String :=
  (m.find? (fun p => p.1 = k)).map (fun p => p.2)

/-- Object-property write (prepend, so `lookupStr` sees the newest binding). -/
def insertStr (m : List (String × String)) (k v : String) : List (String × String) :=
  (k, v) :: m

def lookupChildren (m : List (String × List String)) (k : String) : List String :=
  ((m.find? (fun p => p.1 = k)).map (fun p => p.2)).getD []

/-- `childNetworksMap[parent].push(name)`, creating the entry when absent. -/
def childAppend (m : List (String × List String)) (k v : String) :
    List (String × List String) :=
  if (m.find? (fun p => p.1 = k)).isSome then
    m.map (fun p => if p.1 = k then (p.1, p.2 ++ [v]) else p)
  else m ++ [(k, [v])]

/-- In-place mutation of the node objects with the given id (the source holds
aliases to list elements in `networkNodes` and mutates through them). -/
def updateNodeById (nodes : List Node) (i : String) (f : Node → Node) : List Node :=
  nodes.map (fun nd => if nd.id = i then f nd else nd)

def inwallsCloudId : String := "cloud-inwalls"
def globalCloudId : String := "cloud-global"

/-- The two fixed cloud nodes and the purple international-connection edge. -/
def cloudInit : SynthState :=
  { nodes :=
      [ { id := inwallsCloudId, type := "cloudNode", label := "Inwalls Internet",
          x := 200, y := 20, width := some 300, height := some 120 },
        { id := globalCloudId, type := "cloudNode", label := "Global Internet",
          x := 600, y := 20, width := some 300, height := some 120 } ],
    edges :=
      [ { id := "global-to-inwalls-connection", source := globalCloudId,
          target := inwallsCloudId, animated := true, type := "bezier",
          label := some "国际连接", stroke := some "#9C27B0", strokeWidth := some 3,
          strokeDasharray := some "10,5" } ] }

/-! ## Backbone-group (AS) pass -/

/-- Per-AS precomputed info (the `asNodes` array of the source). -/
structure AsNodeInfo where
  size : ℚ × ℚ
  deviceCount : ℕ
  asInfo : ASGroup
deriving Repr

/-- `network_type || (asIndex === 0 ? 'domestic' : 'international')`. -/
def asNetworkType (asIndex : ℕ) (as : ASGroup) : String :=
  match as.network_type with
  | some t => if t = "" then (if asIndex = 0 then "domestic" else "international") else t
  | none => if asIndex = 0 then "domestic" else "international"

/-- One device of one backbone group: device node, uplink edge, and the
cross-region diversion uplink when the device diverts to an external server
in the other region. -/
def processAsDevice (asNumber asId asCloudId : String) (deviceSpacing : ℚ)
    (st : SynthState) (deviceIndex : ℕ) (device : Device) : SynthState :=
  let deviceId := "device-" ++ asNumber ++ "-" ++ device.name
  let st := { st with nodeIdMap := insertStr st.nodeIdMap device.name deviceId }
  let deviceX : ℚ := 25 + (deviceIndex : ℚ) * deviceSpacing
  let newNode : Node :=
    { id := deviceId, type := "deviceNode", label := device.name,
      diversion := device.diversion, x := deviceX, y := 100,
      parentId := some asId, extentParent := true }
  let st := { st with nodes := st.nodes ++ [newNode] }
  let uplink : Edge :=
    { id := "edge-" ++ asCloudId ++ "-" ++ deviceId, source := asCloudId,
      sourceHandle := some "bottom-source", target := deviceId,
      targetHandle := some "top", animated := true, type := "bezier",
      stroke := some "#4285F4", strokeWidth := some 2, label := some "Internet" }
  let st := { st with edges := st.edges ++ [uplink] }
  match device.diversion with
  | some dv =>
    if dv.target_type = "outerserver" then
      let targetCloudId :=
        if dv.internet_type = some "domestic" then inwallsCloudId else globalCloudId
      if targetCloudId ≠ asCloudId then
        let dvEdge : Edge :=
          { id := "edge-diversion-" ++ targetCloudId ++ "-" ++ deviceId,
            source := targetCloudId, sourceHandle := some "bottom-source",
            target := deviceId, targetHandle := some "top", animated := true,
            type := "bezier", stroke := some "#4285F4", strokeWidth := some 2,
            label := some (dv.label.getD "外部服务器") }
        { st with edges := st.edges ++ [dvEdge] }
      else st
    else st
  | none => st

/-- One backbone group: container node, then its devices. -/
def processAsGroup (horizontalSpacing : ℚ) (acc : ℚ × SynthState)
    (asIndex : ℕ) (info : AsNodeInfo) : ℚ × SynthState :=
  let currentX := acc.1
  let st := acc.2
  let as := info.asInfo
  let asSize := info.size
  let asId := "as-" ++ as.as_number
  let networkType := asNetworkType asIndex as
  let asWidth : ℚ := jsMax asSize.1 ((as.devices.length : ℚ) * 120 + 60)
  let asNode : Node :=
    { id := asId, type := "group", label := as.as_number,
      x := currentX, y := 280, width := some asWidth, height := some asSize.2 }
  let st := { st with nodes := st.nodes ++ [asNode] }
  let currentX' := currentX + asWidth + horizontalSpacing
  let asCloudId := if networkType = "domestic" then inwallsCloudId else globalCloudId
  let deviceSpacing : ℚ := jsMin 200 (jsMax 150 (asWidth / ((as.devices.length : ℚ) + 1)))
  let st := (as.devices.enum.foldl
    (fun s p => processAsDevice as.as_number asId asCloudId deviceSpacing s p.1 p.2) st)
  (currentX', st)

/-- The whole backbone pass: sizes are precomputed per group, then groups are
placed left to right from x = 50.  (`totalAsWidth` in the source is computed
but never read afterwards and is omitted.)  The horizontal spacing divides by
the group count; the source's `900/0 = Infinity` for an empty group list only
feeds a value that the empty fold never reads. -/
def processASGroups (asGroups : List ASGroup) (st : SynthState) : SynthState :=
  let asNodes : List AsNodeInfo := asGroups.map (fun as =>
    { size := calculateGroupSize as.devices.length false 0 0 true,
      deviceCount := as.devices.length, asInfo := as })
  let horizontalSpacing : ℚ := jsMin 80 (jsMax 40 (900 / (asNodes.length : ℚ)))
  (asNodes.enum.foldl
    (fun acc p => processAsGroup horizontalSpacing acc p.1 p.2) (50, st)).2

/-! ## Topology resolver (first loop over the private networks) -/

/-- `Object.keys(privateNetworks)`. -/
def networkNames (privates : List (String × PrivateNetwork)) : List String :=
  privates.map (fun p => p.1)

/-- Per-network device count: `devices.length + 1` (the gateway occupies a
visual device slot), `1` when the device list is absent. -/
def networkDeviceCounts (privates : List (String × PrivateNetwork)) :
    List (String × ℕ) :=
  privates.map (fun p =>
    (p.1, match p.2.devices with | some ds => ds.length + 1 | none => 1))

def lookupCount (m : List (String × ℕ)) (k : String) : ℕ :=
  ((m.find? (fun p => p.1 == k)).map (fun p => p.2)).getD 0

/-- Scan each network's gateway interfaces in declaration order; the first
interface whose type equals a declared network name makes that network the
parent (`break` after the first match). -/
def buildParentChildMaps (privates : List (String × PrivateNetwork)) :
    List (String × String) × List (String × List String) :=
  let names := networkNames privates
  privates.foldl (fun acc p =>
    match p.2.gateway with
    | none => acc
    | some gw =>
      match gw.interfaces with
      | none => acc
      | some intfs =>
        match intfs.find? (fun i => optTruthy i.type && names.contains (i.type.getD "")) with
        | none => acc
        | some i =>
          let parentNetwork := i.type.getD ""
          (acc.1 ++ [(p.1, parentNetwork)], childAppend acc.2 parentNetwork p.1))
    ([], [])

/-- Context shared by the recursive network-emission function. -/
structure NetCtx where
  privates : List (String × PrivateNetwork)
  parentNetworkMap : List (String × String)
  childNetworksMap : List (String × List String)
  deviceCounts : List (String × ℕ)

/-! ## Private-network pass (`createNetworkNode` and the root loop) -/

/-- Modify the element at index `i` (used for the in-place edge upgrade). -/
def modifyAt {α : Type} (l : List α) (i : ℕ) (f : α → α) : List α :=
  match l.get? i with
  | some a => l.set i (f a)
  | none => l

/-- The plain (non-animated, gray) gateway-to-device link. -/
def plainGatewayLink (gatewayId deviceId : String) : Edge :=
  { id := "edge-" ++ gatewayId ++ "-" ++ deviceId, source := gatewayId,
    target := deviceId, animated := false, type := "bezier",
    stroke := some "#b1b1b7" }

/-- The in-place "upgrade" of a device's gateway-link edge when the device
diverts to an external server: re-identified, restyled and animated; the
spread keeps the remaining fields of the plain link. -/
def upgradeGatewayEdge (base : Edge) (dv : Diversion) (deviceId gatewayId : String) : Edge :=
  let isExt := dv.traffic_type == "external"
  let strokeColor := if isExt then "#9C27B0" else "#4285F4"
  { base with
    id := "edge-diversion-" ++ deviceId ++ "-" ++ gatewayId,
    animated := true,
    sourceHandle := if isExt then some "bottom-source" else none,
    targetHandle := if isExt then some "top" else none,
    stroke := some strokeColor,
    strokeWidth := some 2,
    strokeDasharray := if isExt then some "5, 5" else none,
    label := some (dv.label.getD (if isExt then "外部分流" else "外部服务器")) }

/-- One ordinary (interface-list-free) device of a private network: device
node in the second row, a plain gateway link, and — when the device diverts
to an external server and the hard-coded inwalls-cloud →
`device-internal_network-internal_router` edge already exists — the in-place
upgrade of that just-pushed link. -/
def processRegularDevice (name networkId gatewayId : String) (networkWidth : ℚ)
    (regCount : ℕ) (st : SynthState) (deviceIndex : ℕ) (device : Device) : SynthState :=
  let deviceId := "device-" ++ name ++ "-" ++ device.name
  let st := { st with nodeIdMap := insertStr st.nodeIdMap device.name deviceId }
  let horizontalOffset : ℚ := 180
  let deviceX : ℚ :=
    if deviceIndex = 0 then horizontalOffset
    else
      let effectiveWidth := networkWidth - horizontalOffset - 100
      horizontalOffset + (deviceIndex : ℚ) * (effectiveWidth / ((max 1 (regCount - 1) : ℕ) : ℚ))
  let devNode : Node :=
    { id := deviceId, type := "deviceNode", label := device.name,
      diversion := device.diversion, x := deviceX, y := 160,
      parentId := some networkId, extentParent := true }
  let gwEdgeId := "edge-" ++ gatewayId ++ "-" ++ deviceId
  let gwEdge : Edge := plainGatewayLink gatewayId deviceId
  let st := { st with nodes := st.nodes ++ [devNode], edges := st.edges ++ [gwEdge] }
  match device.diversion with
  | none => st
  | some dv =>
    if dv.target_type == "outerserver" then
      let cloudEdge := st.edges.find? (fun e =>
        e.source == inwallsCloudId && e.target == "device-internal_network-internal_router")
      if cloudEdge.isSome then
        match st.edges.findIdx? (fun e => e.id == gwEdgeId) with
        | some edgeIndex =>
          let st :=
            if dv.traffic_type == "external" then
              { st with handledExternalDiversionDevices :=
                  st.handledExternalDiversionDevices ++ [deviceId] }
            else st
          { st with edges := (modifyAt st.edges edgeIndex
              (fun e => upgradeGatewayEdge e dv deviceId gatewayId)) }
        | none => st
      else st
    else st

/-- One sub-gateway device (a device carrying its own interface list): router
node in the first row plus a gateway link, deduplicated through `routerIds`.
The `deviceIndex` is the index in the full device list. -/
def processSubGatewayDevice (name networkId gatewayId : String) (st : SynthState)
    (deviceIndex : ℕ) (device : Device) : SynthState :=
  if name == "test_network" && device.name == "testnet_router" then st
  else if device.interfaces.isNone then st
  else
    let deviceId := "device-" ++ name ++ "-" ++ device.name
    let st := { st with nodeIdMap := insertStr st.nodeIdMap device.name deviceId }
    if st.routerIds.contains deviceId then st
    else
      let st := { st with routerIds := st.routerIds ++ [deviceId] }
      let routerX : ℚ := 30 + (deviceIndex : ℚ) * 200
      let rn : Node :=
        { id := deviceId, type := "routerNode", label := device.name,
          diversion := device.diversion, x := routerX, y := 30,
          parentId := some networkId, extentParent := true }
      let e : Edge := plainGatewayLink gatewayId deviceId
      { st with nodes := st.nodes ++ [rn], edges := st.edges ++ [e] }

/-- Uplink edges of a gateway: one per `domestic` / `international` interface.
Several interfaces of the same type collide on the edge identifier. -/
def gatewayInterfaceEdges (gatewayId : String) (st : SynthState)
    (intf : NetInterface) : SynthState :=
  if intf.type == some "domestic" then
    let e : Edge :=
      { id := "edge-" ++ inwallsCloudId ++ "-" ++ gatewayId ++ "-domestic",
        source := inwallsCloudId, sourceHandle := some "bottom-source",
        target := gatewayId, targetHandle := some "top", animated := true,
        type := "bezier", stroke := some "#4285F4", strokeWidth := some 2,
        label := some "国内网络连接" }
    { st with edges := st.edges ++ [e] }
  else if intf.type == some "international" then
    let e : Edge :=
      { id := "edge-" ++ globalCloudId ++ "-" ++ gatewayId ++ "-international",
        source := globalCloudId, sourceHandle := some "bottom-source",
        target := gatewayId, targetHandle := some "top", animated := true,
        type := "bezier", stroke := some "#4285F4", strokeWidth := some 2,
        label := some "国际网络连接" }
    { st with edges := st.edges ++ [e] }
  else st

/-- The gateway block of one private network: the recorded gateway id, the
router node (deduplicated, with the name-literal internal-network skip), the
per-interface uplink edges and the pending router diversion. -/
def networkGatewayStage (name networkId : String) (gw : Gateway) (st : SynthState) :
    SynthState :=
  let gatewayId := "device-" ++ name ++ "-" ++ gw.name
  let st := { st with gatewayIdByNetwork := insertStr st.gatewayIdByNetwork name gatewayId }
  if name == "internal_network" && gw.name == "testnet_router" then st
  else if st.routerIds.contains gatewayId then st
  else
    let st := { st with routerIds := st.routerIds ++ [gatewayId] }
    let gwNode : Node :=
      { id := gatewayId, type := "routerNode", label := gw.name,
        diversion := gw.diversion, x := 30, y := 30,
        parentId := some networkId, extentParent := true }
    let st := { st with nodes := st.nodes ++ [gwNode] }
    let st :=
      match gw.interfaces with
      | some intfs => intfs.foldl (gatewayInterfaceEdges gatewayId) st
      | none => st
    match gw.diversion with
    | some dv =>
      if dv.target_type == "innerserver" then
        -- for a multi-target (CDN) rule only the first target is recorded;
        -- JavaScript `target[0]` of an empty array is `undefined`
        let targetDeviceName :=
          match dv.target with
          | .multi l => l.headD "undefined"
          | .single s => s
        { st with routerDiversions := st.routerDiversions ++
            [⟨gatewayId, targetDeviceName, dv⟩] }
      else st
    | none => st

/-- The device rows of one private network. -/
def networkDevicesStage (name networkId gatewayId : String) (width : ℚ)
    (network : PrivateNetwork) (st : SynthState) : SynthState :=
  match network.devices with
  | none => st
  | some ds =>
    -- (the source also computes a `deviceSpacing` here that no later
    -- statement reads)
    let regularDevices := ds.filter (fun d =>
      !(name == "test_network" && d.name == "testnet_router") && d.interfaces.isNone)
    let st := regularDevices.enum.foldl
      (fun s p => processRegularDevice name networkId gatewayId width
        regularDevices.length s p.1 p.2) st
    ds.enum.foldl (fun s p => processSubGatewayDevice name networkId gatewayId s p.1 p.2) st

/-- One child subnet of one private network: the recursive emission (through
`recur`), the repositioning of the child container and the subnet-link edge
when both gateway ids resolved. -/
def networkChildStep
    (recur : String → PrivateNetwork → ℕ → Option String → ℕ → ℚ → SynthState →
      Except String SynthState)
    (ctx : NetCtx) (name networkId : String) (level : ℕ) (rootX : ℚ)
    (childSpacing : ℚ) (s : SynthState) (p : ℕ × String) :
    Except String SynthState :=
  let childIndex := p.1
  let childName := p.2
  match (ctx.privates.find? (fun q => q.1 == childName)).map (fun q => q.2) with
  | none => Except.error "Cannot read properties of undefined (reading subnet)"
  | some childData =>
    match recur childName childData childIndex (some networkId) (level + 1) rootX s with
    | Except.error e => Except.error e
    | Except.ok s =>
    let childXPosition := (childIndex : ℚ) * childSpacing + 50
    let s := { s with nodes := (updateNodeById s.nodes ("network-" ++ childName)
      (fun nd => { nd with x := childXPosition, y := 280 })) }
    match lookupStr s.gatewayIdByNetwork name,
          lookupStr s.gatewayIdByNetwork childName with
    | some pg, some cg =>
      let subnetEdge : Edge :=
        { id := "edge-subnet-" ++ pg ++ "-" ++ cg, source := pg,
          sourceHandle := some "bottom-source", target := cg,
          targetHandle := some "top", animated := true, type := "bezier",
          stroke := some "#4CAF50", strokeWidth := some 2,
          label := some "子网连接" }
      Except.ok { s with edges := s.edges ++ [subnetEdge] }
    | _, _ => Except.ok s

/-- The recursive network emitter: container node, gateway node with uplinks
and pending router diversion, device rows, then recursion into child subnets
with a subnet-link edge per child.  The source recursion is unguarded; fuel
exceeding the number of declared networks bounds every reachable call (the
child relation restricted to networks reachable from a root is cycle-free
because each network has at most one inferred parent).  Dereferencing a
missing gateway is the terminal-error path of the original. -/
def createNetworkNode (ctx : NetCtx) (fuel : ℕ) (name : String)
    (network : PrivateNetwork) (_idx : ℕ) (parentIdOpt : Option String)
    (level : ℕ) (rootX : ℚ) (st : SynthState) : Except String SynthState :=
  match fuel with
  | 0 => Except.ok st
  | fuel + 1 =>
    let networkId := "network-" ++ name
    let children := lookupChildren ctx.childNetworksMap name
    let hasSubnetworks := !children.isEmpty
    let totalDeviceCount :=
      lookupCount ctx.deviceCounts name +
        (if hasSubnetworks then (children.map (lookupCount ctx.deviceCounts)).sum else 0)
    let maxSubnetDepth :=
      if hasSubnetworks then
        calculateMaxNetworkDepth (ctx.privates.length + 1) name
          (lookupChildren ctx.childNetworksMap)
      else 0
    let networkSize := calculateGroupSize totalDeviceCount hasSubnetworks level maxSubnetDepth false
    let position : ℚ × ℚ :=
      match parentIdOpt with
      | some _ => (40, 150 + (level : ℚ) * 120)
      | none => (rootX, 560)
    let networkNode : Node :=
      { id := networkId, type := "group", label := replaceFirstUnderscore name,
        x := position.1, y := position.2, width := some networkSize.1,
        height := some networkSize.2, parentId := parentIdOpt,
        extentParent := parentIdOpt.isSome }
    let st := { st with nodes := st.nodes ++ [networkNode] }
    match network.gateway with
    | none => Except.error "Cannot read properties of undefined (reading name)"
    | some gw =>
      let gatewayId := "device-" ++ name ++ "-" ++ gw.name
      let st := networkGatewayStage name networkId gw st
      let st := networkDevicesStage name networkId gatewayId networkSize.1 network st
      match ctx.childNetworksMap.find? (fun p => p.1 == name) with
      | none => Except.ok st
      | some c =>
        let childSpacing := (networkSize.1 - 100) / ((c.2.length : ℚ) + 1)
        c.2.enum.foldlM (networkChildStep (createNetworkNode ctx fuel) ctx name
          networkId level rootX childSpacing) st

/-- Context built from a declaration. -/
def mkNetCtx (cfg : NetworkConfig) : NetCtx :=
  let pc := buildParentChildMaps cfg.privates
  { privates := cfg.privates, parentNetworkMap := pc.1, childNetworksMap := pc.2,
    deviceCounts := networkDeviceCounts cfg.privates }

/-- The root-network loop: networks already identified as subnets are skipped;
each root is emitted at the running `networkStartX`, which then advances by
that container's width plus the root spacing.  (As with the backbone pass,
the `900/rootCount` spacing is only read when at least one root exists.) -/
def processRootNetworks (cfg : NetworkConfig) (st : SynthState) :
    Except String SynthState := do
  let ctx := mkNetCtx cfg
  let rootNetworksCount := (cfg.privates.filter
    (fun p => (lookupStr ctx.parentNetworkMap p.1).isNone)).length
  let networkSpacing : ℚ := jsMin 400 (jsMax 250 (900 / (rootNetworksCount : ℚ)))
  let r ← cfg.privates.foldlM (fun (acc : ℚ × SynthState) p => do
    let networkStartX := acc.1
    let st := acc.2
    if (lookupStr ctx.parentNetworkMap p.1).isSome then
      pure acc
    else
      let st' ← createNetworkNode ctx (cfg.privates.length + 1) p.1 p.2 0 none 0
        networkStartX st
      let nextX :=
        match st'.nodes.find? (fun nd => nd.id == "network-" ++ p.1) with
        | some nd =>
          match nd.width with
          | some w => networkStartX + w + networkSpacing
          | none => networkStartX + 350
        | none => networkStartX + 350
      pure (nextX, st')) ((50 : ℚ), st)
  pure r.2

/-! ## Inferred-interface pass (second pass over the private networks)

Networks already identified as subnets are skipped.  For the remaining
networks, every gateway interface whose type is not itself a declared network
name is resolved against the recorded gateway ids and then against the node
list (id containment or exact label), and a green internal-connection edge is
emitted from the matched node to this network's gateway. -/

def inferredInterfaceStep (names : List String) (networkName : String)
    (st : SynthState) (intf : NetInterface) : SynthState :=
  match intf.type with
  | none => st
  | some t =>
    if t != "" && names.contains t then st
    else if t != "" then
      let targetNodeId : Option String :=
        match lookupStr st.gatewayIdByNetwork t with
        | some gid => some gid
        | none =>
          (st.nodes.find? (fun n => jsIncludes n.id t || n.label == t)).map (fun n => n.id)
      match targetNodeId, lookupStr st.gatewayIdByNetwork networkName with
      | some tid, some currentGatewayId =>
        if networkName != t then
          let e : Edge :=
            { id := "edge-" ++ tid ++ "-" ++ currentGatewayId ++ "-" ++ t,
              source := tid, sourceHandle := some "bottom-source",
              target := currentGatewayId, targetHandle := some "top",
              animated := true, type := "bezier", stroke := some "#4CAF50",
              strokeWidth := some 2,
              label := some (replaceFirstUnderscore t ++ "内部连接") }
          { st with edges := st.edges ++ [e] }
        else st
      | _, _ => st
    else st

/-- One private network of the inferred-interface pass: subnets (networks
with an inferred parent) are skipped before the gateway is even read. -/
def inferredInterfaceNetwork (names : List String) (pm : List (String × String))
    (st : SynthState) (p : String × PrivateNetwork) : Except String SynthState :=
  if (lookupStr pm p.1).isSome then
    pure st
  else
    match p.2.gateway with
    | none => Except.error "Cannot read properties of undefined (reading interfaces)"
    | some gw =>
      match gw.interfaces with
      | some intfs => pure (intfs.foldl (inferredInterfaceStep names p.1) st)
      | none => pure st

def inferredInterfacePass (cfg : NetworkConfig) (st : SynthState) :
    Except String SynthState :=
  cfg.privates.foldlM
    (inferredInterfaceNetwork (networkNames cfg.privates)
      (buildParentChildMaps cfg.privates).1) st

/-! ## Name-literal fixups and special edges -/

/-- Explicit nesting correction for the declared names `test_network` /
`internal_network`: resize the parent and re-home the child container. -/
def specialTestInternalFixup (st : SynthState) : SynthState :=
  match st.nodes.find? (fun n => n.id == "network-test_network"),
        st.nodes.find? (fun n => n.id == "network-internal_network") with
  | some testNode, some _ =>
    let childSize : ℚ := testNode.width.getD 450
    let st := { st with nodes := (updateNodeById st.nodes "network-internal_network"
      (fun nd =>
        match nd.width, nd.height with
        | some w, some h =>
          { nd with width := some (jsMax w (childSize + 200)), height := some (jsMax h 650) }
        | _, _ => nd)) }
    let rehome : Node → Node := fun nd =>
      { nd with x := 80, y := 300, parentId := some "network-internal_network", extentParent := true }
    { st with nodes := (updateNodeById st.nodes "network-test_network" rehome) }
  | _, _ => st

/-- Extra uplink from the domestic cloud to the name-literal internal router. -/
def cloudInternalEdge (st : SynthState) : SynthState :=
  match st.nodes.find? (fun n => n.id == "device-internal_network-internal_router") with
  | some n =>
    let e : Edge :=
      { id := "edge-cloud-internal", source := inwallsCloudId,
        sourceHandle := some "bottom-source", target := n.id,
        targetHandle := some "top", animated := true, type := "bezier",
        stroke := some "#4285F4", strokeWidth := some 2,
        label := some "Internet Connection" }
    { st with edges := st.edges ++ [e] }
  | none => st

/-- Explicit cross-network edge between the two name-literal routers. -/
def internalTestEdge (st : SynthState) : SynthState :=
  match st.nodes.find? (fun n => n.id == "device-internal_network-internal_router"),
        st.nodes.find? (fun n => n.id == "device-test_network-testnet_router") with
  | some a, some b =>
    let e : Edge :=
      { id := "edge-internal-test", source := a.id, target := b.id,
        animated := true, type := "bezier", stroke := some "#9C27B0",
        strokeWidth := some 2, label := some "内网连接" }
    { st with edges := st.edges ++ [e] }
  | _, _ => st

/-! ## Pending router diversions -/

def routerDiversionStep (st : SynthState) (rd : RouterDiversion) : SynthState :=
  let isExternalDiversion := rd.diversion.traffic_type == "external"
  if isExternalDiversion && st.handledExternalDiversionDevices.contains rd.routerId then st
  else
    let targetNode := st.nodes.find? (fun n =>
      let targetId := (lookupStr st.nodeIdMap rd.targetName).getD rd.targetName
      n.id == targetId || jsEndsWith n.id ("-" ++ rd.targetName))
    let divLabel := rd.diversion.label.getD
      (if isExternalDiversion then "外部分流" else "路由分流")
    match targetNode with
    | none =>
      -- looser fallback search, applied only to the literal target `server0`
      if rd.targetName == "server0" then
        match st.nodes.find? (fun n => jsIncludes n.id "server0" || n.label == "server0") with
        | some s0 =>
          let e : Edge :=
            { id := "edge-diversion-router-" ++ rd.routerId ++ "-" ++ s0.id,
              source := s0.id, sourceHandle := some "bottom-source",
              target := rd.routerId, targetHandle := some "top", animated := true,
              type := "bezier", stroke := some "#9C27B0", strokeWidth := some 2,
              strokeDasharray := some "5, 5", label := some divLabel }
          let st := { st with edges := st.edges ++ [e] }
          if isExternalDiversion then
            { st with handledExternalDiversionDevices :=
                st.handledExternalDiversionDevices ++ [rd.routerId] }
          else st
        | none => st
      else st
    | some tn =>
      let e : Edge :=
        { id := "edge-diversion-router-" ++ rd.routerId ++ "-" ++ tn.id,
          source := tn.id, sourceHandle := some "bottom-source",
          target := rd.routerId, targetHandle := some "top", animated := true,
          type := "bezier", stroke := some "#9C27B0", strokeWidth := some 2,
          strokeDasharray := some "5, 5", label := some divLabel }
      let st := { st with edges := st.edges ++ [e] }
      if isExternalDiversion then
        { st with handledExternalDiversionDevices :=
            st.handledExternalDiversionDevices ++ [rd.routerId] }
      else st

def routerDiversionPass (st : SynthState) : SynthState :=
  st.routerDiversions.foldl routerDiversionStep st

/-! ## Device-level diversion pass -/

/-- The widened target search used for CDN multi-target resolution. -/
def cdnRegularTargetPred (targetName : String) (n : Node) : Bool :=
  n.id == targetName || n.id == ("device-AS31898-" ++ targetName) ||
  jsIncludes n.id targetName || jsEndsWith n.id ("-" ++ targetName) ||
  n.label == targetName

/-- One CDN target of one CDN-origin device: a bright `straight` overlay edge
when the target resolves, otherwise a loose Oracle-keyword fallback edge. -/
def deviceDiversionCdnStep (nodeId : String) (dv : Diversion) (st : SynthState)
    (p : ℕ × String) : SynthState :=
  match st.nodes.find? (cdnRegularTargetPred p.2) with
  | some tn =>
    let e : Edge :=
      { id := "edge-cdn-regular-" ++ nodeId ++ "-" ++ tn.id ++ "-" ++ toString p.1,
        source := nodeId, sourceHandle := some "top", target := tn.id,
        targetHandle := some "bottom-target", animated := true, type := "straight",
        stroke := some "#FF5722", strokeWidth := some 6,
        strokeDasharray := some "8,4", label := some (dv.label.getD "CDN回源") }
    { st with edges := st.edges ++ [e] }
  | none =>
    match st.nodes.find? (fun n =>
      (jsIncludes n.id "oracle" && (jsIncludes n.id "dubai" || jsIncludes n.id "osaka")) ||
      (n.label != "" && jsIncludes n.label "oracle")) with
    | some lm =>
      let e : Edge :=
        { id := "edge-cdn-loose-" ++ nodeId ++ "-" ++ lm.id ++ "-" ++ toString p.1,
          source := nodeId, sourceHandle := some "top", target := lm.id,
          targetHandle := some "bottom-target", animated := true, type := "bezier",
          stroke := some "#888888", strokeWidth := some 2,
          strokeDasharray := some "5,2,2,2", label := some (dv.label.getD "CDN回源") }
      { st with edges := st.edges ++ [e] }
    | none => st

/-- JavaScript string coercion of `diversion.target` when used as a string
key (`string[]` coerces to its comma-joined form). -/
def externalSingleTargetStr : DivTarget → String
  | .single s => s
  | .multi l => String.intercalate "," l

def diversionTargetPred (m : List (String × String)) (t : DivTarget) (n : Node) : Bool :=
  let ts := externalSingleTargetStr t
  let targetId := (lookupStr m ts).getD ts
  n.id == targetId || jsEndsWith n.id ("-" ++ ts)

def deviceDiversionStep (st : SynthState) (node : Node) : SynthState :=
  match node.diversion with
  | none => st
  | some dv =>
    if dv.traffic_type == "external" &&
        st.handledExternalDiversionDevices.contains node.id then st
    else if dv.target_type == "innerserver" then
      match dv.traffic_type == "cdn", dv.target with
      | true, .multi l => l.enum.foldl (deviceDiversionCdnStep node.id dv) st
      | _, _ =>
        if dv.traffic_type == "external" then
          match st.nodes.find? (diversionTargetPred st.nodeIdMap dv.target) with
          | some tn =>
            let e : Edge :=
              { id := "edge-diversion-" ++ node.id ++ "-" ++ tn.id, source := tn.id,
                sourceHandle := some "bottom-source", target := node.id,
                targetHandle := some "top", animated := true, type := "bezier",
                stroke := some "#9C27B0", strokeWidth := some 2,
                strokeDasharray := some "5, 5",
                label := some (dv.label.getD "外部分流") }
            { st with edges := st.edges ++ [e] }
          | none => st
        else
          match st.nodes.find? (diversionTargetPred st.nodeIdMap dv.target) with
          | some tn =>
            let e : Edge :=
              { id := "edge-diversion-" ++ node.id ++ "-" ++ tn.id, source := tn.id,
                sourceHandle := some "bottom-source", target := node.id,
                targetHandle := some "top", animated := true, type := "bezier",
                stroke := some "#9C27B0", strokeWidth := some 2,
                strokeDasharray := some "5, 5",
                label := some (dv.label.getD "外部分流") }
            let st := { st with edges := st.edges ++ [e] }
            let targetCloudId :=
              if dv.internet_type == some "domestic" then inwallsCloudId else globalCloudId
            if st.edges.any (fun e => e.source == targetCloudId && e.target == tn.id) then st
            else
              let e2 : Edge :=
                { id := "edge-" ++ targetCloudId ++ "-" ++ tn.id, source := targetCloudId,
                  sourceHandle := some "bottom-source", target := tn.id,
                  targetHandle := some "top", animated := true, type := "bezier",
                  stroke := some "#4285F4", strokeWidth := some 2,
                  label := some "专线连接" }
              { st with edges := st.edges ++ [e2] }
          | none => st
    else st

def deviceDiversionPass (st : SynthState) : SynthState :=
  st.nodes.foldl deviceDiversionStep st

/-! ## Name-literal diversion stitching and the forced CDN passes -/

def device3Special (st : SynthState) : SynthState :=
  let device3Node := st.nodes.find? (fun n => n.id == "device-AS2-device3")
  let st :=
    match device3Node,
          st.nodes.find? (fun n => n.id == "device-internal_network-internal_server") with
    | some d3, some isrv =>
      let e : Edge :=
        { id := "edge-diversion-" ++ d3.id ++ "-" ++ isrv.id, source := d3.id,
          sourceHandle := some "bottom-source", target := isrv.id,
          targetHandle := some "top", animated := true, type := "bezier",
          stroke := some "#9C27B0", strokeWidth := some 2, label := some "专线分流" }
      { st with edges := st.edges ++ [e] }
    | _, _ => st
  match st.nodes.find? (fun n => n.id == "device-test_network-testnet_router"), device3Node with
  | some tr, some d3 =>
    match tr.diversion with
    | some dv =>
      let e : Edge :=
        { id := "edge-diversion-" ++ tr.id ++ "-" ++ d3.id, source := d3.id,
          sourceHandle := some "bottom-source", target := tr.id,
          targetHandle := some "top", animated := true, type := "bezier",
          stroke := some "#9C27B0", strokeWidth := some 2,
          strokeDasharray := some "5, 5", label := some (dv.label.getD "路由分流") }
      { st with edges := st.edges ++ [e] }
    | none => st
  | _, _ => st

def ubuntuId : String := "device-home_server_network-rdch-server-ubuntu"

/-- Oracle-node search by id fragments only. -/
def oracleNodePredId (n : Node) : Bool :=
  jsIncludes n.id "oracle" || jsIncludes n.id "dubai" || jsIncludes n.id "osaka"

/-- Oracle-node search by id fragments or label fragments. -/
def oracleNodePredWide (n : Node) : Bool :=
  oracleNodePredId n ||
  (n.label != "" && (jsIncludes n.label "oracle" || jsIncludes n.label "dubai" ||
    jsIncludes n.label "osaka"))

/-- The gray 0.5-width dashed CDN overlay edge used by the forced CDN passes. -/
def grayCdnEdge (edgeId sourceId targetId : String) (withHandles : Bool) : Edge :=
  { id := edgeId, source := sourceId,
    sourceHandle := if withHandles then some "top" else none,
    target := targetId,
    targetHandle := if withHandles then some "bottom-target" else none,
    animated := true, type := "bezier", stroke := some "#888888",
    strokeWidth := some (1/2), strokeDasharray := some "5,2" }

/-- The name-literal `rdch-server-ubuntu` CDN block: remove this node's
previous CDN edges, add one direct gray edge per Oracle node, and set the
CDN role flags. -/
def ubuntuCdnSpecial (st : SynthState) : SynthState :=
  match st.nodes.find? (fun n => n.id == ubuntuId) with
  | none => st
  | some ub =>
    match ub.diversion with
    | none => st
    | some dv =>
      match dv.traffic_type == "cdn", dv.target with
      | true, .multi _ =>
        let oracleNodes := st.nodes.filter oracleNodePredWide
        if oracleNodes.isEmpty then st
        else
          let cdnEdgeIdsToRemove := (st.edges.filter (fun e =>
            jsIncludes e.id "edge-cdn-" && (e.source == ub.id || e.target == ub.id))).map
              (fun e => e.id)
          let keptEdges := st.edges.filter (fun e => !(cdnEdgeIdsToRemove.contains e.id))
          let st := { st with edges := keptEdges }
          let st := oracleNodes.enum.foldl (fun s p =>
            { s with edges := s.edges ++
                [grayCdnEdge ("edge-cdn-direct-" ++ ub.id ++ "-" ++ p.2.id ++ "-" ++
                  toString p.1) ub.id p.2.id true] }) st
          let st := oracleNodes.foldl (fun s o =>
            { s with nodes := (updateNodeById s.nodes o.id
                (fun nd => { nd with isCdnEdge := true })) }) st
          { st with nodes := (updateNodeById st.nodes ub.id
              (fun nd => { nd with isCdnOrigin := true })) }
      | _, _ => st

/-- The forced test-CDN block: when the name-literal ubuntu node and at least
one Oracle-fragment node exist, every edge whose id contains `edge-cdn-` is
removed and replaced by clock-stamped test edges (`Date.now()` is the `now`
argument). -/
def cdnTestPass (now : ℕ) (st : SynthState) : SynthState :=
  match st.nodes.find? (fun n => n.id == ubuntuId) with
  | none => st
  | some hs =>
    let oracleNodes := st.nodes.filter oracleNodePredId
    if oracleNodes.isEmpty then st
    else
      let st := { st with edges := st.edges.filter (fun e => !(jsIncludes e.id "edge-cdn-")) }
      oracleNodes.enum.foldl (fun s p =>
        let testEdgeId := "edge-cdn-test-" ++ toString now ++ "-" ++ toString p.1
        let s := { s with edges := s.edges ++ [grayCdnEdge testEdgeId hs.id p.2.id false] }
        let s := { s with nodes := (updateNodeById s.nodes hs.id
          (fun nd => { nd with isCdnOrigin := true })) }
        { s with nodes := (updateNodeById s.nodes p.2.id
          (fun nd => { nd with isCdnEdge := true })) }) st

/-- A node carrying a multi-target CDN diversion rule. -/
def cdnSourcePred (n : Node) : Bool :=
  match n.diversion with
  | some dv =>
    dv.traffic_type == "cdn" && (match dv.target with | .multi _ => true | .single _ => false)
  | none => false

def cdnFinalTargetPred (targetName : String) (n : Node) : Bool :=
  jsIncludes n.id targetName || jsEndsWith n.id ("-" ++ targetName) ||
  n.label == targetName

/-- Final-pass direct ubuntu → Oracle stitching (adds an edge only when no
edge with the same endpoints exists yet). -/
def cdnFinalDirectBlock (st : SynthState) : SynthState :=
  match st.nodes.find? (fun n => n.id == ubuntuId) with
  | none => st
  | some ub =>
    let oracleNodes := st.nodes.filter oracleNodePredWide
    if oracleNodes.isEmpty then st
    else
      oracleNodes.enum.foldl (fun s p =>
        let edgeId := "edge-cdn-final-direct-" ++ ub.id ++ "-" ++ p.2.id ++ "-" ++
          toString p.1
        if (s.edges.find? (fun e => e.source == ub.id && e.target == p.2.id)).isSome then s
        else
          let s := { s with edges := s.edges ++ [grayCdnEdge edgeId ub.id p.2.id true] }
          let s := { s with nodes := (updateNodeById s.nodes ub.id
            (fun nd => { nd with isCdnOrigin := true })) }
          { s with nodes := (updateNodeById s.nodes p.2.id
            (fun nd => { nd with isCdnEdge := true })) }) st

/-- One target of one CDN source in the final pass: a gray edge to the
resolved target (replacing any edge that already carries the same id) and the
CDN role flags on both endpoints. -/
def cdnFinalTargetStep (sourceNodeId : String) (s : SynthState) (p : ℕ × String) : SynthState :=
  match s.nodes.find? (cdnFinalTargetPred p.2) with
  | some tn =>
    let edgeId := "edge-cdn-final-" ++ sourceNodeId ++ "-" ++ tn.id ++ "-" ++
      toString p.1
    let newEdge := grayCdnEdge edgeId sourceNodeId tn.id true
    let s :=
      match s.edges.findIdx? (fun e => e.id == edgeId) with
      | some i => { s with edges := s.edges.set i newEdge }
      | none => { s with edges := s.edges ++ [newEdge] }
    let s := { s with nodes := (updateNodeById s.nodes sourceNodeId
      (fun nd => { nd with isCdnOrigin := true })) }
    { s with nodes := (updateNodeById s.nodes tn.id
      (fun nd => { nd with isCdnEdge := true })) }
  | none => s

/-- Final pass over the remaining CDN sources. -/
def cdnFinalSourceStep (st : SynthState) (sourceNode : Node) : SynthState :=
  if sourceNode.id == ubuntuId then st
  else
    match sourceNode.diversion with
    | none => st
    | some dv =>
      match dv.target with
      | .single _ => st
      | .multi targets =>
        targets.enum.foldl (cdnFinalTargetStep sourceNode.id) st

def cdnFinalPass (st : SynthState) : SynthState :=
  let cdnSourceNodes := st.nodes.filter cdnSourcePred
  if cdnSourceNodes.isEmpty then st
  else
    let st := cdnFinalDirectBlock st
    cdnSourceNodes.foldl cdnFinalSourceStep st

/-- The very last forced CDN stitching with static edge ids. -/
def staticCdnPass (st : SynthState) : SynthState :=
  match st.nodes.find? (fun n => n.id == ubuntuId) with
  | none => st
  | some fu =>
    let finalOracleNodes := st.nodes.filter oracleNodePredId
    if finalOracleNodes.isEmpty then st
    else
      finalOracleNodes.enum.foldl (fun s p =>
        let staticEdgeId := "static-cdn-edge-" ++ toString p.1
        let s :=
          match s.edges.findIdx? (fun e => e.id == staticEdgeId) with
          | some i => { s with edges := s.edges.eraseIdx i }
          | none => s
        let s := { s with edges := s.edges ++ [grayCdnEdge staticEdgeId fu.id p.2.id false] }
        let s := { s with nodes := (updateNodeById s.nodes fu.id
          (fun nd => { nd with isCdnOrigin := true })) }
        { s with nodes := (updateNodeById s.nodes p.2.id
          (fun nd => { nd with isCdnEdge := true })) }) st

/-- Extra sizing headroom for the name-literal `home_server_network`. -/
def homeServerFixup (st : SynthState) : SynthState :=
  if (st.nodes.find? (fun n => n.id == "network-home_server_network")).isSome then
    { st with nodes := (updateNodeById st.nodes "network-home_server_network"
      (fun nd =>
        match nd.width, nd.height with
        | some w, some h => { nd with height := some (jsMax h 500), width := some (jsMax w 800) }
        | _, _ => nd)) }
  else st

/-! ## The whole synthesis -/

/-- The structural passes: clouds, backbone groups, private networks,
inferred-interface edges, the name-literal fixups and the pending router
diversions. -/
def structuralStages (cfg : NetworkConfig) : Except String SynthState := do
  let st := processASGroups cfg.autonomous_systems cloudInit
  let st ← processRootNetworks cfg st
  let st ← inferredInterfacePass cfg st
  let st := specialTestInternalFixup st
  let st := cloudInternalEdge st
  let st := internalTestEdge st
  pure (routerDiversionPass st)

/-- The device-level diversion pass and the name-literal diversion/CDN
stitching that precede the clock-dependent block. -/
def diversionPrefixStages (st : SynthState) : SynthState :=
  ubuntuCdnSpecial (device3Special (deviceDiversionPass st))

/-- Every pass before the clock-dependent forced test-CDN block. -/
def stagesBeforeCdnTest (cfg : NetworkConfig) : Except String SynthState :=
  (structuralStages cfg).map diversionPrefixStages

/-- Every pass after (and including) the forced test-CDN block; `now` is the
`Date.now()` clock value read there. -/
def stagesFromCdnTest (now : ℕ) (st : SynthState) : SynthState :=
  homeServerFixup (staticCdnPass (cdnFinalPass (cdnTestPass now st)))

/-- Everything after the structural passes. -/
def diversionAndCdnStages (now : ℕ) (st : SynthState) : SynthState :=
  stagesFromCdnTest now (diversionPrefixStages st)

/-- The full synthesis of one declaration at clock value `now`. -/
def synthesize (cfg : NetworkConfig) (now : ℕ) : Except String (List Node × List Edge) :=
  (structuralStages cfg).map (fun st =>
    let st := diversionAndCdnStages now st
    (st.nodes, st.edges))

/-- The hook result visible to the caller: node and edge lists stay at their
initial empty value when the synthesis aborts, and the error is surfaced. -/
def useNetworkData (cfg : NetworkConfig) (now : ℕ) :
    List Node × List Edge × Option String :=
  match synthesize cfg now with
  | .ok r => (r.1, r.2, none)
  | .error e => ([], [], some e)

/-! ## Derived notions used by the verification -/

/-- Devices per row of the packing grid (at most 4, at least 2 when more than
one device exists). -/
def packDevicesPerRow (n : ℕ) : ℕ := max 2 (min 4 n)

/-- Row count of the packing grid (`Math.ceil` of the division). -/
def packRows (n : ℕ) : ℕ := (n + packDevicesPerRow n - 1) / packDevicesPerRow n

/-- Column count of the packing grid. -/
def packCols (n : ℕ) : ℕ := min (packDevicesPerRow n) n

/-- The children map of a linear chain `0 → 1 → ⋯ → d` of nested networks. -/
def chainChildren (d : ℕ) : ℕ → List ℕ := fun i => if i < d then [i + 1] else []

/-- Container height the synthesizer computes for the root of a depth-`d`
chain holding `n` counted devices (the root has children exactly when
`d ≠ 0`, nesting level 0, no backbone flag). -/
def rootContainerHeight (n d : ℕ) : ℚ := (calculateGroupSize n (d != 0) 0 d false).2

/-- The guard of the forced test-CDN block: the name-literal ubuntu node
exists and at least one node id contains an Oracle fragment. -/
def forcedCdnGuard (st : SynthState) : Bool :=
  (st.nodes.find? (fun n => n.id == ubuntuId)).isSome &&
  !(st.nodes.filter oracleNodePredId).isEmpty

/-- The same guard evaluated on the state reaching the forced test-CDN block. -/
def guardAfterStages (cfg : NetworkConfig) : Bool :=
  match stagesBeforeCdnTest cfg with
  | .ok st => forcedCdnGuard st
  | .error _ => false

/-- An edge id from the first (regular) CDN resolution pass. -/
def edgeCdnRegularId (a t : String) (i : ℕ) : String :=
  "edge-cdn-regular-" ++ a ++ "-" ++ t ++ "-" ++ toString i

/-- An edge id from the final CDN resolution pass. -/
def edgeCdnFinalId (a t : String) (i : ℕ) : String :=
  "edge-cdn-final-" ++ a ++ "-" ++ t ++ "-" ++ toString i

/-- Is an edge a CDN-category edge?  The source itself classifies CDN edges
by this id test (its final logging pass counts exactly these). -/
def isCdnCategory (e : Edge) : Bool := jsIncludes e.id "edge-cdn-"

/-! ## Concrete declarations used as counterexamples and witnesses -/

/-- A gateway with two interfaces of the same classification type. -/
def gwDup : Gateway :=
  { name := "g",
    interfaces := some [ { name := "eth0", type := some "domestic" },
                         { name := "eth1", type := some "domestic" } ] }

def cfgDupIntf : NetworkConfig :=
  { privates := [("p", { subnet := "10.0.0.0/24", gateway := some gwDup })] }

/-- A declaration whose emitted nodes trigger the forced test-CDN block: the
name-literal ubuntu device and an Oracle-fragment backbone device. -/
def asOracle : ASGroup :=
  { as_number := "A1", network_type := some "international",
    devices := [ { name := "oracle-x" } ] }

def netUbuntu : PrivateNetwork :=
  { subnet := "s", gateway := some { name := "g" },
    devices := some [ { name := "rdch-server-ubuntu" } ] }

def cfgClock : NetworkConfig :=
  { autonomous_systems := [asOracle], privates := [("home_server_network", netUbuntu)] }

/-- CDN fan-out scenario: device `deva` diverts to the three backbone devices
`tgx`, `tgy`, `tgz`; no name-literal special case applies. -/
def divCdnFan : Diversion :=
  { target := .multi ["tgx", "tgy", "tgz"], target_type := "innerserver",
    traffic_type := "cdn", label := some "cdnlabel" }

def asCdnFan : ASGroup :=
  { as_number := "A1", network_type := some "international",
    devices := [ { name := "tgx" }, { name := "tgy" }, { name := "tgz" } ] }

def netCdnFan : PrivateNetwork :=
  { subnet := "s", gateway := some { name := "g" },
    devices := some [ { name := "deva", diversion := some divCdnFan } ] }

def cfgCdnFan : NetworkConfig :=
  { autonomous_systems := [asCdnFan], privates := [("p", netCdnFan)] }

/-- A device diverting to an external server in a declaration without the
name-literal `internal_network` uplink the upgrade is gated on. -/
def divOuter : Diversion :=
  { target := .single "srv", target_type := "outerserver",
    traffic_type := "external", label := some "ext" }

def devOuter : Device := { name := "d", diversion := some divOuter }

def netOuter : PrivateNetwork :=
  { subnet := "s", gateway := some { name := "g" },
    devices := some [devOuter] }

def cfgOuter : NetworkConfig := { privates := [("p", netOuter)] }

/-- A synthesis state that already carries the inwalls-cloud →
`device-internal_network-internal_router` uplink the edge upgrade is gated on. -/
def stWithInternalUplink : SynthState :=
  { edges := [ { id := "edge-cloud-internal", source := "cloud-inwalls",
                 target := "device-internal_network-internal_router",
                 animated := true, type := "bezier" } ] }

/-- Two networks whose gateways name each other: a parent-inference cycle. -/
def gwCycA : Gateway :=
  { name := "ga", interfaces := some [ { name := "e0", type := some "netb" } ] }

def gwCycB : Gateway :=
  { name := "gb", interfaces := some [ { name := "e0", type := some "neta" } ] }

def cfgCycle : NetworkConfig :=
  { privates := [("neta", { subnet := "s", gateway := some gwCycA }),
                 ("netb", { subnet := "s", gateway := some gwCycB })] }

/-- A subnet whose gateway has an extra interface naming a backbone device. -/
def asSub : ASGroup :=
  { as_number := "A1", network_type := some "domestic",
    devices := [ { name := "srvx" } ] }

def gwSubA : Gateway :=
  { name := "ga", interfaces := some [ { name := "e0", type := some "domestic" } ] }

def gwSubB : Gateway :=
  { name := "gb",
    interfaces := some [ { name := "e0", type := some "neta" },
                         { name := "e1", type := some "srvx" } ] }

def cfgSubIntf : NetworkConfig :=
  { autonomous_systems := [asSub],
    privates := [("neta", { subnet := "s", gateway := some gwSubA }),
                 ("netb", { subnet := "s", gateway := some gwSubB })] }

/-- The name-literal skip: network `internal_network` with gateway
`testnet_router` and one device. -/
def netSkip : PrivateNetwork :=
  { subnet := "s", gateway := some { name := "testnet_router" },
    devices := some [ { name := "d" } ] }

def cfgInternalSkip : NetworkConfig := { privates := [("internal_network", netSkip)] }

/-- What the inferred-interface pass guarantees about each appended edge. -/
def InferredEdgeSpec (pm : List (String × String)) (names : List String)
    (st : SynthState) (e : Edge) : Prop :=
  e.animated = true ∧ e.stroke = some "#4CAF50" ∧
  ∃ name, name ∈ names ∧ lookupStr pm name = none ∧
    lookupStr st.gatewayIdByNetwork name = some e.target ∧
    ((∃ t, lookupStr st.gatewayIdByNetwork t = some e.source) ∨
     ∃ n ∈ st.nodes, n.id = e.source)

/-- A root network whose gateway interface names the backbone device `srvx`. -/
def gwRootIntf : Gateway :=
  { name := "ga", interfaces := some [ { name := "e0", type := some "srvx" } ] }

def cfgRootIntf : NetworkConfig :=
  { privates := [("neta", { subnet := "s", gateway := some gwRootIntf })] }

def stRootIntf : SynthState :=
  { nodes := [ { id := "device-A1-srvx", type := "deviceNode", label := "srvx",
                 x := 0, y := 0 } ],
    gatewayIdByNetwork := [("neta", "device-neta-ga")] }

/-- The state the inferred-interface pass produces from `stRootIntf`. -/
def stRootIntfOut : SynthState :=
  { nodes := [ { id := "device-A1-srvx", type := "deviceNode", label := "srvx",
                 x := 0, y := 0 } ],
    edges := [ { id := "edge-device-A1-srvx-device-neta-ga-srvx",
                 source := "device-A1-srvx", sourceHandle := some "bottom-source",
                 target := "device-neta-ga", targetHandle := some "top",
                 animated := true, type := "bezier", label := some "srvx内部连接",
                 stroke := some "#4CAF50", strokeWidth := some 2 } ],
    gatewayIdByNetwork := [("neta", "device-neta-ga")] }

/-- A private network with no gateway: the terminal-error input. -/
def cfgNoGateway : NetworkConfig := { privates := [("p", { subnet := "s" })] }

instance {ε α : Type} [DecidableEq ε] [DecidableEq α] : DecidableEq (Except ε α)
  | .ok x, .ok y => decidable_of_iff (x = y) (by simp)
  | .ok _, .error _ => isFalse (by simp)
  | .error _, .ok _ => isFalse (by simp)
  | .error e, .error f => decidable_of_iff (e = f) (by simp)

/-- The orange overlay edge of the regular CDN pass. -/
def cdnRegularEdge (aid tid : String) (i : ℕ) (lbl : Option String) : Edge :=
  { id := edgeCdnRegularId aid tid i, source := aid, sourceHandle := some "top",
    target := tid, targetHandle := some "bottom-target", animated := true,
    type := "straight", stroke := some "#FF5722", strokeWidth := some 6,
    strokeDasharray := some "8,4", label := some (lbl.getD "CDN回源") }

/-- The gray duplicate edge of the final CDN pass. -/
def cdnFinalEdge (aid tid : String) (i : ℕ) : Edge :=
  grayCdnEdge (edgeCdnFinalId aid tid i) aid tid true

/-- Setting the CDN-origin role flag. -/
def markCdnOrigin (nd : Node) : Node := { nd with isCdnOrigin := true }

/-- Setting the CDN-edge role flag. -/
def markCdnEdge (nd : Node) : Node := { nd with isCdnEdge := true }

/-- The multi-target CDN diversion of the fan-out witness. -/
def dvFanW : Diversion :=
  { target := DivTarget.multi ["nx", "ny", "nz"], target_type := "innerserver",
    traffic_type := "cdn" }

/-- The CDN-origin device of the fan-out witness. -/
def nodeFanA : Node :=
  { id := "device-as1-orig", type := "deviceNode", label := "orig",
    diversion := some dvFanW, x := 0, y := 0 }

/-- The three CDN target devices of the fan-out witness. -/
def nodeFanX : Node :=
  { id := "device-net-nx", type := "deviceNode", label := "hx", x := 0, y := 0 }

def nodeFanY : Node :=
  { id := "device-net-ny", type := "deviceNode", label := "hy", x := 0, y := 0 }

def nodeFanZ : Node :=
  { id := "device-net-nz", type := "deviceNode", label := "hz", x := 0, y := 0 }

/-- The pre-diversion state of the fan-out witness. -/
def stFanW : SynthState :=
  { nodes := [nodeFanA, nodeFanX, nodeFanY, nodeFanZ] }

/-- The nesting invariant of C5: a container node for a network that has an
inferred parent carries the parent container reference. -/
def GroupParentSpec (pm : List (String × String)) (n : Node) : Prop :=
  ∀ nm p : String, n.id = "network-" ++ nm → lookupStr pm nm = some p →
    n.parentId = some ("network-" ++ p)

/-- Constructor discriminator of `Except` (evaluates lazily in proofs). -/
def exceptIsOk {ε α : Type} : Except ε α → Bool
  | .ok _ => true
  | .error _ => false

/-- One step of the parent/child-map fold (the body of
`buildParentChildMaps`). -/
def parentStep (names : List String)
    (acc : List (String × String) × List (String × List String))
    (p : String × PrivateNetwork) :
    List (String × String) × List (String × List String) :=
  match p.2.gateway with
  | none => acc
  | some gw =>
    match gw.interfaces with
    | none => acc
    | some intfs =>
      match intfs.find? (fun i => optTruthy i.type && names.contains (i.type.getD "")) with
      | none => acc
      | some i =>
        (acc.1 ++ [(p.1, i.type.getD "")], childAppend acc.2 (i.type.getD "") p.1)

/-- The parent network of the C5 witness. -/
def gwSub5a : Gateway := { name := "ga" }

/-- The child network gateway of the C5 witness: its first interface type
names the declared network `pa`. -/
def gwSub5b : Gateway :=
  { name := "gb", interfaces := some [{ name := "eth0", type := some "pa" }] }

def cfgSub5 : NetworkConfig :=
  { privates := [("pa", { subnet := "10.0.0.0/24", gateway := some gwSub5a }),
                 ("ch", { subnet := "10.0.1.0/24", gateway := some gwSub5b })] }

/-- The emitted state of the C5 witness run. -/
def st5out : SynthState := (processRootNetworks cfgSub5 {}).toOption.getD {}


/-- The backbone group of the C10 closure declaration. -/
def asC10 : ASGroup :=
  { as_number := "AS77", network_type := some "domestic", devices := [{ name := "srv1" }] }

/-- Root network `alpha`: one uplink interface, one inferred interface naming
the device `gamma` of network `beta`, and one ordinary device. -/
def gwC10a : Gateway :=
  { name := "rta", interfaces := some [{ name := "eth0", type := some "domestic" },
      { name := "eth1", type := some "gamma" }] }

def gwC10b : Gateway :=
  { name := "rtb", interfaces := some [{ name := "wan0", type := some "international" }] }

def gwC10s : Gateway :=
  { name := "rts", interfaces := some [{ name := "lan0", type := some "alpha" }] }

/-- The three private networks of the C10 closure declaration. -/
def netC10a : PrivateNetwork :=
  { subnet := "10.0.0.0/24", gateway := some gwC10a, devices := some [{ name := "boxa" }] }

def netC10b : PrivateNetwork :=
  { subnet := "10.0.1.0/24", gateway := some gwC10b, devices := some [{ name := "gamma" }] }

def netC10s : PrivateNetwork :=
  { subnet := "10.0.2.0/24", gateway := some gwC10s }

/-- A declaration exercising every edge-emitting pass outside the name-literal
blocks: backbone uplinks, gateway-device links, a subnet link and an
inferred-interface edge. -/
def cfgC10 : NetworkConfig :=
  { autonomous_systems := [asC10],
    privates := [("alpha", netC10a), ("beta", netC10b), ("sub", netC10s)] }

/-- Does every edge endpoint name an emitted node? -/
def edgeEndpointsClosed (nodes : List Node) (edges : List Edge) : Bool :=
  edges.all (fun e =>
    nodes.any (fun n => n.id == e.source) && nodes.any (fun n => n.id == e.target))

/-! ## General lemmas -/

lemma jsMax_eq_max (a b : ℚ) : jsMax a b = max a b := (max_def a b).symm

lemma jsMin_eq_min (a b : ℚ) : jsMin a b = min a b := by
  unfold jsMin
  rcases le_total b a with h | h
  · simp [h, min_eq_right h]
  · rcases eq_or_lt_of_le h with rfl | hlt
    · simp
    · simp [not_le.mpr hlt, min_eq_left h]

/-! ## C8 — container sizing bounds -/

/-- C8: for device counts up to 50, with no children, level 0 and no child
depth, the Container Sizer's width dominates both the base width and
`(columns + 2) ·` per-device width, its height dominates
`rows ·` per-device height plus the fixed margin, and both dimensions are
strictly positive (for backbone groups and plain networks alike). -/
theorem containerSizingBounds (n : ℕ) (_hn : n ≤ 50) (isAS : Bool) :
    (if isAS then (300:ℚ) else 400) ≤ (calculateGroupSize n false 0 0 isAS).1 ∧
    ((packCols n : ℚ) + 2) * (if isAS then (130:ℚ) else 180) ≤
      (calculateGroupSize n false 0 0 isAS).1 ∧
    (packRows n : ℚ) * (if isAS then (140:ℚ) else 100) + (if isAS then (100:ℚ) else 220) ≤
      (calculateGroupSize n false 0 0 isAS).2 ∧
    0 < (calculateGroupSize n false 0 0 isAS).1 ∧
    0 < (calculateGroupSize n false 0 0 isAS).2 := by
  cases isAS <;>
    simp only [calculateGroupSize, packCols, packRows, packDevicesPerRow, jsMax_eq_max,
      Bool.false_eq_true, if_false, if_true, lt_irrefl 0] <;>
    refine ⟨le_max_left _ _, le_max_right _ _, le_max_right _ _, ?_, ?_⟩ <;>
    positivity

theorem containerSizingBounds_witness :
    (3 ≤ 50) ∧
    ((if true then (300:ℚ) else 400) ≤ (calculateGroupSize 3 false 0 0 true).1 ∧
     ((packCols 3 : ℚ) + 2) * (if true then (130:ℚ) else 180) ≤
       (calculateGroupSize 3 false 0 0 true).1 ∧
     (packRows 3 : ℚ) * (if true then (140:ℚ) else 100) + (if true then (100:ℚ) else 220) ≤
       (calculateGroupSize 3 false 0 0 true).2 ∧
     0 < (calculateGroupSize 3 false 0 0 true).1 ∧
     0 < (calculateGroupSize 3 false 0 0 true).2) :=
  ⟨by norm_num, containerSizingBounds 3 (by norm_num) true⟩

/-! ## C9 — depth calculator and height monotonicity -/

lemma chainDepthAux {d : ℕ} (fuel : ℕ) : ∀ i, d - i ≤ fuel →
    calculateMaxNetworkDepth fuel i (chainChildren d) = d - i := by
  induction fuel with
  | zero => intro i h; simp only [calculateMaxNetworkDepth]; omega
  | succ fuel ih =>
    intro i h
    by_cases hid : i < d
    · have hc : chainChildren d i = [i + 1] := by simp [chainChildren, hid]
      simp only [calculateMaxNetworkDepth, hc, List.foldl_cons, List.foldl_nil,
        ih (i + 1) (by omega)]
      omega
    · have hc : chainChildren d i = [] := by simp [chainChildren, hid]
      simp only [calculateMaxNetworkDepth, hc]
      omega

lemma groupSize_height_noSub (n : ℕ) :
    (calculateGroupSize n false 0 0 false).2 =
      max 400 ((packRows n : ℚ) * 100 + 220) := by
  simp [calculateGroupSize, packRows, packDevicesPerRow, jsMax_eq_max]

lemma groupSize_height_withSub (n d : ℕ) :
    (calculateGroupSize n true 0 d false).2 =
      max ((calculateGroupSize n false 0 0 false).2 * (14/10 + (d : ℚ) * (3/10)))
        (600 + (d : ℚ) * 150) := by
  simp [calculateGroupSize, jsMax_eq_max]

lemma rootHeight_pos_base (n : ℕ) : (0:ℚ) < (calculateGroupSize n false 0 0 false).2 := by
  rw [groupSize_height_noSub]
  have h4 : (0:ℚ) < 400 := by norm_num
  exact lt_max_of_lt_left h4

lemma rootHeight_succ (n d : ℕ) :
    rootContainerHeight n d < rootContainerHeight n (d + 1) := by
  have h0 := rootHeight_pos_base n
  cases d with
  | zero =>
    show (calculateGroupSize n false 0 0 false).2 < (calculateGroupSize n true 0 1 false).2
    rw [groupSize_height_withSub]
    refine lt_max_of_lt_left ?_
    push_cast
    nlinarith [h0]
  | succ d =>
    show (calculateGroupSize n true 0 (d + 1) false).2 <
      (calculateGroupSize n true 0 (d + 2) false).2
    rw [groupSize_height_withSub, groupSize_height_withSub]
    refine max_lt_max ?_ ?_
    · push_cast
      nlinarith [h0]
    · push_cast
      nlinarith

/-- C9: on the depth-`d` chain the Depth Calculator returns exactly `d` for
the root (with the fuel the synthesizer would pass), and, holding the counted
device number fixed, the root-container height is strictly monotone in the
chain depth. -/
theorem depthExactAndHeightMono (n d₁ d₂ : ℕ) (h : d₁ < d₂) :
    calculateMaxNetworkDepth (d₁ + 1) 0 (chainChildren d₁) = d₁ ∧
    calculateMaxNetworkDepth (d₂ + 1) 0 (chainChildren d₂) = d₂ ∧
    rootContainerHeight n d₁ < rootContainerHeight n d₂ := by
  refine ⟨?_, ?_, ?_⟩
  · simpa using chainDepthAux (d := d₁) (d₁ + 1) 0 (by omega)
  · simpa using chainDepthAux (d := d₂) (d₂ + 1) 0 (by omega)
  · exact strictMono_nat_of_lt_succ (rootHeight_succ n) h

theorem depthExactAndHeightMono_witness :
    (2 < 5) ∧
    (calculateMaxNetworkDepth (2 + 1) 0 (chainChildren 2) = 2 ∧
     calculateMaxNetworkDepth (5 + 1) 0 (chainChildren 5) = 5 ∧
     rootContainerHeight 4 2 < rootContainerHeight 4 5) :=
  ⟨by norm_num, depthExactAndHeightMono 4 2 5 (by norm_num)⟩

/-! ## C1 — determinism of the synthesis -/

lemma cdnTestPass_guard_false (now : ℕ) (st : SynthState)
    (h : forcedCdnGuard st = false) : cdnTestPass now st = st := by
  unfold forcedCdnGuard at h
  unfold cdnTestPass
  cases hf : st.nodes.find? (fun n => n.id == ubuntuId) with
  | none => rfl
  | some hs =>
    rw [hf] at h
    simp only [Option.isSome_some, Bool.true_and, Bool.not_eq_false'] at h
    simp [h]

/-- C1 (amended): the synthesis output is independent of the clock — hence
re-running it is byte-identical — for every declaration on which the forced
test-CDN block does not fire, i.e. whose emitted node set lacks the
name-literal ubuntu node or any Oracle-fragment node id. -/
theorem synthesisClockIndependent (cfg : NetworkConfig) (t₁ t₂ : ℕ)
    (h : guardAfterStages cfg = false) :
    synthesize cfg t₁ = synthesize cfg t₂ := by
  unfold guardAfterStages stagesBeforeCdnTest at h
  unfold synthesize diversionAndCdnStages stagesFromCdnTest
  cases hst : structuralStages cfg with
  | error e => rfl
  | ok st =>
    rw [hst] at h
    simp only [Except.map] at h ⊢
    rw [cdnTestPass_guard_false t₁ _ h, cdnTestPass_guard_false t₂ _ h]

/-- C1 (counterexample): on a declaration carrying the ubuntu/Oracle names,
two runs at different clock values emit different edge id lists. -/
theorem synthesisClockDependent_counterexample :
    ((useNetworkData cfgClock 0).2.1.map (fun e => e.id)) ≠
      ((useNetworkData cfgClock 1).2.1.map (fun e => e.id)) := by decide

theorem synthesisClockIndependent_witness :
    guardAfterStages cfgDupIntf = false ∧
    synthesize cfgDupIntf 0 = synthesize cfgDupIntf 5 :=
  ⟨by decide, synthesisClockIndependent cfgDupIntf 0 5 (by decide)⟩

/-! ## C2 — identifier uniqueness -/

/-- C2: a gateway with two interfaces of classification type `domestic`
produces two uplink edges with the same identifier, so the emitted edge id
list is not duplicate-free — the code violates the uniqueness the spec
demands (§7 calls any such collision a synthesis bug). -/
theorem duplicateEdgeIds_on_duplicate_interfaces :
    ¬ (((useNetworkData cfgDupIntf 0).2.1.map (fun e => e.id)).Nodup) := by decide

/-! ## C6 — terminal error yields no partial result -/

/-- C6: whenever the synthesis aborts with an error, the caller-visible node
and edge lists are both the pre-run empty lists and the single error is
surfaced. -/
theorem synthesisFailureYieldsEmpty (cfg : NetworkConfig) (now : ℕ) (e : String)
    (h : synthesize cfg now = .error e) :
    useNetworkData cfg now = ([], [], some e) := by
  unfold useNetworkData
  rw [h]

theorem synthesisFailureYieldsEmpty_witness :
    synthesize cfgNoGateway 0 =
      Except.error "Cannot read properties of undefined (reading name)" ∧
    useNetworkData cfgNoGateway 0 =
      ([], [], some "Cannot read properties of undefined (reading name)") :=
  ⟨by decide, synthesisFailureYieldsEmpty cfgNoGateway 0 _ (by decide)⟩

/-! ## C3 — CDN fan-out (counterexample) -/

/-- C3 (counterexample): with device `deva` diverting to the three present
nodes `tgx`, `tgy`, `tgz`, the final edge list holds six CDN-category edges,
not three — each target is linked once by the regular pass and once more by
the final pass. -/
theorem cdnFanOutNotThree_counterexample :
    ((useNetworkData cfgCdnFan 0).2.1.filter isCdnCategory).length ≠ 3 ∧
    ((useNetworkData cfgCdnFan 0).2.1.filter isCdnCategory).length = 6 := by
  constructor <;> decide

/-! ## C4 — gateway-link upgrade (counterexample) -/

/-- C4 (counterexample): the device `d` diverts to an external server, yet —
because no inwalls-cloud → `device-internal_network-internal_router` edge
exists — its gateway-link edge keeps its original identifier, stays
non-animated, and no diversion edge appears at all. -/
theorem upgradeRequiresInternalRouter_counterexample :
    ((useNetworkData cfgOuter 0).2.1.find? (fun e => e.id == "edge-device-p-g-device-p-d")).map
        (fun e => e.animated) = some false ∧
    ((useNetworkData cfgOuter 0).2.1.filter
        (fun e => jsIncludes e.id "edge-diversion-")).length = 0 := by
  constructor <;> decide

lemma findIdx?_concat_of_fresh_aux {α : Type} (p : α → Bool) (a : α) (ha : p a = true) :
    ∀ (l : List α) (i : ℕ), (∀ x ∈ l, p x = false) →
      List.findIdx? p (l ++ [a]) i = some (i + l.length) := by
  intro l
  induction l with
  | nil => intro i _; simp [List.findIdx?, ha]
  | cons x xs ih =>
    intro i hl
    have hx : p x = false := hl x (by simp)
    simp only [List.cons_append, List.findIdx?, hx, Bool.false_eq_true, if_false]
    rw [List.append_eq, ih (i + 1) (fun y hy => hl y (by simp [hy]))]
    congr 1
    simp only [List.length_cons]
    omega

lemma findIdx?_concat_of_fresh {α : Type} (l : List α) (a : α) (p : α → Bool)
    (hl : ∀ x ∈ l, p x = false) (ha : p a = true) :
    (l ++ [a]).findIdx? p = some l.length := by
  simpa using findIdx?_concat_of_fresh_aux p a ha l 0 hl

lemma set_concat_length {α : Type} (l : List α) (a b : α) :
    (l ++ [a]).set l.length b = l ++ [b] := by
  induction l with
  | nil => rfl
  | cons x xs ih => simp [List.set_cons_succ, ih]

lemma modifyAt_concat {α : Type} (l : List α) (a : α) (f : α → α) :
    modifyAt (l ++ [a]) l.length f = l ++ [f a] := by
  unfold modifyAt
  rw [List.get?_eq_getElem?, List.getElem?_concat_length]
  exact set_concat_length l a (f a)

/-- C4 (amended): when the hard-coded inwalls-cloud →
`device-internal_network-internal_router` uplink is already present and the
device's gateway-link id is fresh, processing a device that diverts to an
external server appends exactly one edge — the gateway link already upgraded
in place (re-identified, restyled, animated, same endpoints) — so the upgrade
itself appends nothing and the edge count grows only by the link; without
that uplink (see the counterexample) the link stays plain. -/
theorem gatewayLinkUpgradeInPlace
    (name networkId gatewayId : String) (w : ℚ) (regCount deviceIndex : ℕ)
    (st : SynthState) (device : Device) (dv : Diversion)
    (hdv : device.diversion = some dv)
    (houter : dv.target_type = "outerserver")
    (hcloud : (st.edges.find? (fun e =>
      e.source == inwallsCloudId && e.target == "device-internal_network-internal_router")).isSome = true)
    (hfresh : ∀ e ∈ st.edges,
      e.id ≠ "edge-" ++ gatewayId ++ "-" ++ ("device-" ++ name ++ "-" ++ device.name)) :
    (processRegularDevice name networkId gatewayId w regCount st deviceIndex device).edges =
      st.edges ++ [upgradeGatewayEdge
        (plainGatewayLink gatewayId ("device-" ++ name ++ "-" ++ device.name)) dv
        ("device-" ++ name ++ "-" ++ device.name) gatewayId] ∧
    (processRegularDevice name networkId gatewayId w regCount st deviceIndex device).edges.length =
      st.edges.length + 1 := by
  have hmain : (processRegularDevice name networkId gatewayId w regCount st deviceIndex device).edges =
      st.edges ++ [upgradeGatewayEdge
        (plainGatewayLink gatewayId ("device-" ++ name ++ "-" ++ device.name)) dv
        ("device-" ++ name ++ "-" ++ device.name) gatewayId] := by
    set deviceId := "device-" ++ name ++ "-" ++ device.name with hdevId
    set gwEdgeId := "edge-" ++ gatewayId ++ "-" ++ deviceId with hgwId
    have houterB : (dv.target_type == "outerserver") = true := by simp [houter]
    have hfind : ((st.edges ++ [plainGatewayLink gatewayId deviceId]).find? (fun e =>
        e.source == inwallsCloudId && e.target == "device-internal_network-internal_router")).isSome = true := by
      rw [List.find?_append]
      cases hf : st.edges.find? (fun e =>
        e.source == inwallsCloudId && e.target == "device-internal_network-internal_router") with
      | none => rw [hf] at hcloud; simp at hcloud
      | some e => simp
    have hidx : ((st.edges ++ [plainGatewayLink gatewayId deviceId]).findIdx? (fun e =>
        e.id == gwEdgeId)) = some st.edges.length := by
      refine findIdx?_concat_of_fresh _ _ _ ?_ ?_
      · intro e he
        have := hfresh e he
        simp only [beq_eq_false_iff_ne, ne_eq]
        exact this
      · simp [plainGatewayLink]
    unfold processRegularDevice
    simp only [hdv]
    rw [houterB]
    simp only [if_true, hfind, hidx]
    cases hext : dv.traffic_type == "external" <;>
      simp [hext, modifyAt_concat]
  exact ⟨hmain, by rw [hmain]; simp⟩

theorem gatewayLinkUpgradeInPlace_witness :
    ((stWithInternalUplink.edges.find? (fun e =>
      e.source == inwallsCloudId && e.target == "device-internal_network-internal_router")).isSome = true) ∧
    (processRegularDevice "p" "network-p" "device-p-g" 400 1 stWithInternalUplink 0 devOuter).edges =
      stWithInternalUplink.edges ++ [upgradeGatewayEdge
        (plainGatewayLink "device-p-g" "device-p-d") divOuter "device-p-d" "device-p-g"] := by
  refine ⟨by decide, ?_⟩
  have h := gatewayLinkUpgradeInPlace "p" "network-p" "device-p-g" 400 1 0
    stWithInternalUplink devOuter divOuter rfl rfl (by decide) (by decide)
  exact h.1

/-! ## C5 — inferred parent and nesting (counterexample) -/

/-- C5 (counterexample): in the two-network parent cycle, `neta`'s gateway
has an interface naming the declared network `netb`, yet `neta` appears
nowhere in the output — it is excluded from the root pass but never emitted
under its inferred parent either. -/
theorem subnetNesting_counterexample :
    (lookupStr (buildParentChildMaps cfgCycle.privates).1 "neta" = some "netb") ∧
    ((useNetworkData cfgCycle 0).1.filter (fun n => n.id == "network-neta")).length = 0 ∧
    (useNetworkData cfgCycle 0).2.2 = none := by
  refine ⟨by decide, by decide, by decide⟩

/-! ## C7 — inferred-interface pass scope (counterexample) -/

/-- C7 (counterexample): the subnet `netb` has an extra gateway interface of
type `srvx` matching the emitted backbone device node, but the second pass
skips subnets, so no inferred-interface edge from that node to `netb`'s
gateway is emitted. -/
theorem inferredInterfaceSkipsSubnets_counterexample :
    (lookupStr (buildParentChildMaps cfgSubIntf.privates).1 "netb" = some "neta") ∧
    ((useNetworkData cfgSubIntf 0).1.filter (fun n => n.id == "device-A1-srvx")).length = 1 ∧
    ((useNetworkData cfgSubIntf 0).2.1.filter (fun e =>
        e.source == "device-A1-srvx" && e.target == "device-netb-gb")).length = 0 := by
  refine ⟨by decide, by decide, by decide⟩

/-! ## C10 — edge endpoint closure (counterexample) -/

/-- C10 (counterexample): under the name-literal `internal_network` /
`testnet_router` skip, the gateway node is suppressed while the device's
gateway-link edge still names it, leaving a dangling edge source. -/
theorem edgeEndpointClosure_counterexample :
    ¬ ((useNetworkData cfgInternalSkip 0).2.1.all (fun e =>
        ((useNetworkData cfgInternalSkip 0).1.any (fun n => n.id == e.source)) &&
        ((useNetworkData cfgInternalSkip 0).1.any (fun n => n.id == e.target)))) := by
  decide

/-! ## C7 — inferred-interface pass scope (amended) -/

lemma inferredInterfaceStep_nodes (names : List String) (nm : String)
    (st : SynthState) (intf : NetInterface) :
    (inferredInterfaceStep names nm st intf).nodes = st.nodes := by
  unfold inferredInterfaceStep
  repeat' split
  all_goals (first | rfl | (dsimp only; split <;> rfl))

lemma inferredInterfaceStep_gwmap (names : List String) (nm : String)
    (st : SynthState) (intf : NetInterface) :
    (inferredInterfaceStep names nm st intf).gatewayIdByNetwork = st.gatewayIdByNetwork := by
  unfold inferredInterfaceStep
  repeat' split
  all_goals (first | rfl | (dsimp only; split <;> rfl))

lemma inferredInterfaceStep_edges (pm : List (String × String)) (names : List String)
    (nm : String) (hm : nm ∈ names) (hroot : lookupStr pm nm = none)
    (st : SynthState) (intf : NetInterface) :
    (inferredInterfaceStep names nm st intf).edges = st.edges ∨
    ∃ ed, (inferredInterfaceStep names nm st intf).edges = st.edges ++ [ed] ∧
      InferredEdgeSpec pm names st ed := by
  unfold inferredInterfaceStep
  split
  · exact Or.inl rfl
  · rename_i t ht
    by_cases h1 : (t != "" && names.contains t) = true
    · rw [if_pos h1]
      exact Or.inl rfl
    · rw [if_neg h1]
      by_cases h2 : (t != "") = true
      · rw [if_pos h2]
        repeat' split
        all_goals dsimp only
        all_goals repeat' split
        all_goals try (exact Or.inl rfl)
        · rename_i pg cg hps hcg
          refine Or.inr ⟨_, rfl, rfl, rfl, nm, hm, hroot, hcg, Or.inl ⟨t, ?_⟩⟩
          exact Eq.trans (by assumption) hps
        · rename_i pg cg hmap hcg
          refine Or.inr ⟨_, rfl, rfl, rfl, nm, hm, hroot, hcg, ?_⟩
          simp only [Option.map_eq_some'] at hmap
          obtain ⟨n, hfind, hnid⟩ := hmap
          exact Or.inr ⟨n, List.mem_of_find?_eq_some hfind, hnid⟩
      · rw [if_neg h2]
        exact Or.inl rfl

lemma InferredEdgeSpec_mono {pm : List (String × String)} {names : List String}
    {st st' : SynthState} {e : Edge} (h1 : st'.nodes = st.nodes)
    (h2 : st'.gatewayIdByNetwork = st.gatewayIdByNetwork) :
    InferredEdgeSpec pm names st' e → InferredEdgeSpec pm names st e := by
  unfold InferredEdgeSpec
  rw [h1, h2]
  exact id

lemma inferredInterfaceFold_spec (pm : List (String × String)) (names : List String)
    (nm : String) (hm : nm ∈ names) (hroot : lookupStr pm nm = none) :
    ∀ (intfs : List NetInterface) (st : SynthState),
      (intfs.foldl (inferredInterfaceStep names nm) st).nodes = st.nodes ∧
      (intfs.foldl (inferredInterfaceStep names nm) st).gatewayIdByNetwork =
        st.gatewayIdByNetwork ∧
      ∃ es, (intfs.foldl (inferredInterfaceStep names nm) st).edges = st.edges ++ es ∧
        ∀ e ∈ es, InferredEdgeSpec pm names st e := by
  intro intfs
  induction intfs with
  | nil => intro st; exact ⟨rfl, rfl, [], by simp, by simp⟩
  | cons i is ih =>
    intro st
    simp only [List.foldl_cons]
    obtain ⟨hn, hg, es, he, hs⟩ := ih (inferredInterfaceStep names nm st i)
    have h1 := inferredInterfaceStep_nodes names nm st i
    have h2 := inferredInterfaceStep_gwmap names nm st i
    have h3 := inferredInterfaceStep_edges pm names nm hm hroot st i
    refine ⟨hn.trans h1, hg.trans h2, ?_⟩
    rcases h3 with h3 | ⟨ed, hed, hspec⟩
    · refine ⟨es, ?_, fun e he' => InferredEdgeSpec_mono h1 h2 (hs e he')⟩
      rw [he, h3]
    · refine ⟨ed :: es, ?_, ?_⟩
      · rw [he, hed]
        simp
      · intro e he'
        rcases List.mem_cons.mp he' with rfl | he''
        · exact hspec
        · exact InferredEdgeSpec_mono h1 h2 (hs e he'')

lemma inferredInterfaceNetwork_spec (names : List String) (pm : List (String × String))
    (p : String × PrivateNetwork) (hm : p.1 ∈ names) (st st' : SynthState)
    (h : inferredInterfaceNetwork names pm st p = .ok st') :
    st'.nodes = st.nodes ∧ st'.gatewayIdByNetwork = st.gatewayIdByNetwork ∧
    ∃ es, st'.edges = st.edges ++ es ∧ ∀ e ∈ es, InferredEdgeSpec pm names st e := by
  unfold inferredInterfaceNetwork at h
  by_cases hr : (lookupStr pm p.1).isSome
  · rw [if_pos hr] at h
    have : st = st' := by injection h
    subst this
    exact ⟨rfl, rfl, [], by simp, by simp⟩
  · rw [if_neg hr] at h
    have hroot : lookupStr pm p.1 = none := Option.not_isSome_iff_eq_none.mp hr
    cases hg : p.2.gateway with
    | none => rw [hg] at h; cases h
    | some gw =>
      rw [hg] at h
      dsimp only at h
      cases hi : gw.interfaces with
      | some intfs =>
        rw [hi] at h
        have : (intfs.foldl (inferredInterfaceStep names p.1) st) = st' := by injection h
        subst this
        exact inferredInterfaceFold_spec pm names p.1 hm hroot intfs st
      | none =>
        rw [hi] at h
        have : st = st' := by injection h
        subst this
        exact ⟨rfl, rfl, [], by simp, by simp⟩

lemma inferredInterfaceFoldM_spec (names : List String) (pm : List (String × String)) :
    ∀ (l : List (String × PrivateNetwork)), (∀ p ∈ l, p.1 ∈ names) →
      ∀ (st st' : SynthState),
      l.foldlM (inferredInterfaceNetwork names pm) st = .ok st' →
      st'.nodes = st.nodes ∧ st'.gatewayIdByNetwork = st.gatewayIdByNetwork ∧
      ∃ es, st'.edges = st.edges ++ es ∧ ∀ e ∈ es, InferredEdgeSpec pm names st e := by
  intro l
  induction l with
  | nil =>
    intro _ st st' h
    have : st = st' := by injection h
    subst this
    exact ⟨rfl, rfl, [], by simp, by simp⟩
  | cons p ps ih =>
    intro hl st st' h
    rw [List.foldlM_cons] at h
    cases h1 : inferredInterfaceNetwork names pm st p with
    | error e => rw [h1] at h; cases h
    | ok st1 =>
      rw [h1] at h
      have hrest : ps.foldlM (inferredInterfaceNetwork names pm) st1 = .ok st' := h
      obtain ⟨hn1, hg1, es1, he1, hs1⟩ :=
        inferredInterfaceNetwork_spec names pm p (hl p (by simp)) st st1 h1
      obtain ⟨hn2, hg2, es2, he2, hs2⟩ := ih (fun q hq => hl q (by simp [hq])) st1 st' hrest
      refine ⟨hn2.trans hn1, hg2.trans hg1, es1 ++ es2, ?_, ?_⟩
      · rw [he2, he1, List.append_assoc]
      · intro e he'
        rcases List.mem_append.mp he' with h' | h'
        · exact hs1 e h'
        · exact InferredEdgeSpec_mono hn1 hg1 (hs2 e h')

/-- C7 (amended): the second pass emits edges only on behalf of networks
without an inferred parent — subnets are skipped outright — and each appended
edge is animated, green, targets that parentless network's recorded gateway
id, and originates either from a recorded gateway id or from an emitted node
matched by id-containment or exact label; the pass changes no nodes. -/
theorem inferredInterfaceOnlyRootNetworks (cfg : NetworkConfig) (st st' : SynthState)
    (h : inferredInterfacePass cfg st = .ok st') :
    st'.nodes = st.nodes ∧ st'.gatewayIdByNetwork = st.gatewayIdByNetwork ∧
    ∃ es, st'.edges = st.edges ++ es ∧
      ∀ e ∈ es, InferredEdgeSpec (buildParentChildMaps cfg.privates).1
        (networkNames cfg.privates) st e := by
  unfold inferredInterfacePass at h
  exact inferredInterfaceFoldM_spec (networkNames cfg.privates)
    (buildParentChildMaps cfg.privates).1 cfg.privates
    (fun p hp => List.mem_map_of_mem Prod.fst hp) st st' h

theorem inferredInterfaceOnlyRootNetworks_witness :
    inferredInterfacePass cfgRootIntf stRootIntf = Except.ok stRootIntfOut ∧
    (stRootIntfOut.nodes = stRootIntf.nodes ∧
     stRootIntfOut.gatewayIdByNetwork = stRootIntf.gatewayIdByNetwork ∧
     ∃ es, stRootIntfOut.edges = stRootIntf.edges ++ es ∧
       ∀ e ∈ es, InferredEdgeSpec (buildParentChildMaps cfgRootIntf.privates).1
         (networkNames cfgRootIntf.privates) stRootIntf e) :=
  ⟨by decide, inferredInterfaceOnlyRootNetworks cfgRootIntf stRootIntf stRootIntfOut (by decide)⟩

lemma charsInfix_of_isPrefixOf (pat l : List Char) (h : pat.isPrefixOf l = true) :
    charsInfix pat l = true := by
  cases l with
  | nil =>
    cases pat with
    | nil => rfl
    | cons c cs => simp [List.isPrefixOf] at h
  | cons c cs => simp [charsInfix, h]

lemma isPrefixOf_append_right {α : Type} [DecidableEq α] (p a b : List α)
    (h : p.isPrefixOf a = true) : p.isPrefixOf (a ++ b) = true := by
  rw [List.isPrefixOf_iff_prefix] at h ⊢
  exact h.trans (a.prefix_append b)

lemma jsIncludes_append_of_prefix (head rest q : String)
    (h : q.data.isPrefixOf head.data = true) : jsIncludes (head ++ rest) q = true := by
  unfold jsIncludes
  rw [String.data_append]
  exact charsInfix_of_isPrefixOf _ _ (isPrefixOf_append_right _ _ _ h)

lemma append_left_ne (p q x y : String) (i : ℕ) (hip : i < p.data.length)
    (hiq : i < q.data.length) (hne : p.data.getD i ' ' ≠ q.data.getD i ' ') :
    p ++ x ≠ q ++ y := by
  intro h
  have hd : (p ++ x).data = (q ++ y).data := by rw [h]
  rw [String.data_append, String.data_append] at hd
  have h1 : (p.data ++ x.data).getD i ' ' = p.data.getD i ' ' := by
    unfold List.getD
    rw [List.get?_eq_getElem?, List.get?_eq_getElem?, List.getElem?_append_left hip]
  have h2 : (q.data ++ y.data).getD i ' ' = q.data.getD i ' ' := by
    unfold List.getD
    rw [List.get?_eq_getElem?, List.get?_eq_getElem?, List.getElem?_append_left hiq]
  rw [hd] at h1
  rw [h2] at h1
  exact hne h1.symm

lemma ne_of_getLast (s1 s2 : String) (c1 c2 : Char)
    (h1 : s1.data.getLast? = some c1) (h2 : s2.data.getLast? = some c2)
    (hne : c1 ≠ c2) : s1 ≠ s2 := by
  intro h
  rw [h] at h1
  rw [h1] at h2
  exact hne (by injection h2)

lemma getLast_append_digit (s d : String) (c : Char) (hd : d.data = [c]) :
    (s ++ d).data.getLast? = some c := by
  rw [String.data_append, hd]
  exact List.getLast?_concat _

lemma cdnFold_nodes (nid : String) (dv : Diversion) (l : List (ℕ × String)) :
    ∀ s : SynthState, (l.foldl (deviceDiversionCdnStep nid dv) s).nodes = s.nodes := by
  induction l with
  | nil => intro s; rfl
  | cons p ps ih =>
    intro s
    rw [List.foldl_cons, ih]
    unfold deviceDiversionCdnStep
    repeat' split
    all_goals rfl

lemma deviceDiversionStep_nodes (s : SynthState) (n : Node) :
    (deviceDiversionStep s n).nodes = s.nodes := by
  unfold deviceDiversionStep
  repeat' split
  all_goals first
    | rfl
    | apply cdnFold_nodes
    | (dsimp only; split <;> rfl)

lemma deviceDiversionFold_nodes (l : List Node) :
    ∀ st : SynthState, (l.foldl deviceDiversionStep st).nodes = st.nodes := by
  induction l with
  | nil => intro st; rfl
  | cons n ns ih =>
    intro st
    rw [List.foldl_cons, ih, deviceDiversionStep_nodes]

lemma deviceDiversionPass_nodes (st : SynthState) :
    (deviceDiversionPass st).nodes = st.nodes := by
  unfold deviceDiversionPass
  exact deviceDiversionFold_nodes st.nodes st

lemma deviceDiversionStep_noop (s : SynthState) (n : Node) (h : n.diversion = none) :
    deviceDiversionStep s n = s := by
  unfold deviceDiversionStep
  rw [h]

lemma deviceDiversionFold_noop (ns : List Node) (hns : ∀ n ∈ ns, n.diversion = none) :
    ∀ s : SynthState, ns.foldl deviceDiversionStep s = s := by
  induction ns with
  | nil => intro s; rfl
  | cons n ns' ih =>
    intro s
    rw [List.foldl_cons, deviceDiversionStep_noop s n (hns n (by simp)),
      ih (fun m hm => hns m (by simp [hm]))]

lemma cdnStep_eq (s : SynthState) (aid : String) (dv : Diversion) (i : ℕ) (t tid : String)
    (N : List Node) (hsn : s.nodes = N)
    (hfind : (N.find? (cdnRegularTargetPred t)).map (fun n => n.id) = some tid) :
    deviceDiversionCdnStep aid dv s (i, t) =
      { s with edges := s.edges ++ [cdnRegularEdge aid tid i dv.label] } := by
  obtain ⟨tn, hf, hid⟩ := Option.map_eq_some'.mp hfind
  unfold deviceDiversionCdnStep
  rw [hsn, hf, ← hid]
  rfl

lemma deviceDiversionStep_cdn (s : SynthState) (A : Node) (dv : Diversion)
    (x y z tx ty tz : String) (N : List Node) (hsn : s.nodes = N)
    (hAdv : A.diversion = some dv)
    (ht : dv.traffic_type = "cdn") (htt : dv.target_type = "innerserver")
    (htg : dv.target = .multi [x, y, z])
    (hrx : (N.find? (cdnRegularTargetPred x)).map (fun n => n.id) = some tx)
    (hry : (N.find? (cdnRegularTargetPred y)).map (fun n => n.id) = some ty)
    (hrz : (N.find? (cdnRegularTargetPred z)).map (fun n => n.id) = some tz) :
    deviceDiversionStep s A =
      { s with edges := s.edges ++ [cdnRegularEdge A.id tx 0 dv.label,
        cdnRegularEdge A.id ty 1 dv.label, cdnRegularEdge A.id tz 2 dv.label] } := by
  have hext : (dv.traffic_type == "external") = false := by simp [ht]
  have hcdn : (dv.traffic_type == "cdn") = true := by simp [ht]
  have hinner : (dv.target_type == "innerserver") = true := by simp [htt]
  unfold deviceDiversionStep
  rw [hAdv]
  try dsimp only
  rw [hext]
  simp only [Bool.false_and, Bool.false_eq_true, if_false, hinner, if_true, hcdn, htg]
  try dsimp only
  rw [show ([x, y, z].enum) = [(0, x), (1, y), (2, z)] from rfl]
  have h1 := cdnStep_eq s A.id dv 0 x tx N hsn hrx
  have h2 := cdnStep_eq { s with edges := s.edges ++ [cdnRegularEdge A.id tx 0 dv.label] }
    A.id dv 1 y ty N hsn hry
  have h3 := cdnStep_eq { s with edges :=
      s.edges ++ [cdnRegularEdge A.id tx 0 dv.label] ++ [cdnRegularEdge A.id ty 1 dv.label] }
    A.id dv 2 z tz N hsn hrz
  rw [List.foldl_cons, h1, List.foldl_cons, h2, List.foldl_cons, h3, List.foldl_nil]
  simp

lemma deviceDiversionFold_edges (A : Node) (dv : Diversion)
    (x y z tx ty tz : String) (N : List Node)
    (hAdv : A.diversion = some dv)
    (ht : dv.traffic_type = "cdn") (htt : dv.target_type = "innerserver")
    (htg : dv.target = .multi [x, y, z])
    (hrx : (N.find? (cdnRegularTargetPred x)).map (fun n => n.id) = some tx)
    (hry : (N.find? (cdnRegularTargetPred y)).map (fun n => n.id) = some ty)
    (hrz : (N.find? (cdnRegularTargetPred z)).map (fun n => n.id) = some tz) :
    ∀ (ns : List Node), ns.filter (fun n => n.diversion.isSome) = [A] →
    ∀ s : SynthState, s.nodes = N →
      ns.foldl deviceDiversionStep s =
        { s with edges := s.edges ++ [cdnRegularEdge A.id tx 0 dv.label,
          cdnRegularEdge A.id ty 1 dv.label, cdnRegularEdge A.id tz 2 dv.label] } := by
  intro ns
  induction ns with
  | nil => intro h; simp at h
  | cons n ns' ih =>
    intro hf s hsn
    rw [List.foldl_cons]
    cases hd : n.diversion with
    | none =>
      rw [deviceDiversionStep_noop s n hd]
      rw [List.filter_cons_of_neg (by simp [hd])] at hf
      exact ih hf s hsn
    | some d =>
      rw [List.filter_cons_of_pos (by simp [hd])] at hf
      have hnA : n = A ∧ ns'.filter (fun n => n.diversion.isSome) = [] := by
        injection hf with h1 h2
        exact ⟨h1, h2⟩
      obtain ⟨rfl, hrest⟩ := hnA
      rw [deviceDiversionStep_cdn s n dv x y z tx ty tz N hsn hAdv ht htt htg hrx hry hrz]
      refine deviceDiversionFold_noop ns' (fun m hm => ?_) _
      by_contra hne
      have : m ∈ ns'.filter (fun n => n.diversion.isSome) := by
        rw [List.mem_filter]
        exact ⟨hm, by cases hmm : m.diversion with
          | none => exact absurd hmm hne
          | some _ => simp⟩
      rw [hrest] at this
      cases this

lemma deviceDiversionPass_cdn (st : SynthState) (A : Node) (dv : Diversion)
    (x y z tx ty tz : String)
    (hA : st.nodes.filter (fun n => n.diversion.isSome) = [A])
    (hAdv : A.diversion = some dv)
    (ht : dv.traffic_type = "cdn") (htt : dv.target_type = "innerserver")
    (htg : dv.target = .multi [x, y, z])
    (hrx : (st.nodes.find? (cdnRegularTargetPred x)).map (fun n => n.id) = some tx)
    (hry : (st.nodes.find? (cdnRegularTargetPred y)).map (fun n => n.id) = some ty)
    (hrz : (st.nodes.find? (cdnRegularTargetPred z)).map (fun n => n.id) = some tz) :
    deviceDiversionPass st =
      { st with edges := st.edges ++ [cdnRegularEdge A.id tx 0 dv.label,
        cdnRegularEdge A.id ty 1 dv.label, cdnRegularEdge A.id tz 2 dv.label] } := by
  unfold deviceDiversionPass
  exact deviceDiversionFold_edges A dv x y z tx ty tz st.nodes hAdv ht htt htg
    hrx hry hrz st.nodes hA st rfl

lemma find?_eq_none_of_all {α : Type} (l : List α) (p : α → Bool)
    (h : ∀ x ∈ l, p x = false) : l.find? p = none := by
  rw [List.find?_eq_none]
  intro x hx
  simp [h x hx]

lemma device3Special_noop (s : SynthState)
    (h : s.nodes.find? (fun n => n.id == "device-AS2-device3") = none) :
    device3Special s = s := by
  unfold device3Special
  rw [h]
  dsimp only
  split
  · rename_i tr d3 _ heq
    cases heq
  · rfl

lemma ubuntuCdnSpecial_noop (s : SynthState)
    (h : s.nodes.find? (fun n => n.id == ubuntuId) = none) :
    ubuntuCdnSpecial s = s := by
  unfold ubuntuCdnSpecial
  rw [h]

lemma cdnTestPass_noop (now : ℕ) (s : SynthState)
    (h : s.nodes.find? (fun n => n.id == ubuntuId) = none) :
    cdnTestPass now s = s := by
  unfold cdnTestPass
  rw [h]

lemma cdnFinalDirectBlock_noop (s : SynthState)
    (h : s.nodes.find? (fun n => n.id == ubuntuId) = none) :
    cdnFinalDirectBlock s = s := by
  unfold cdnFinalDirectBlock
  rw [h]

lemma staticCdnPass_noop (s : SynthState)
    (h : s.nodes.find? (fun n => n.id == ubuntuId) = none) :
    staticCdnPass s = s := by
  unfold staticCdnPass
  rw [h]

lemma homeServerFixup_edges (s : SynthState) : (homeServerFixup s).edges = s.edges := by
  unfold homeServerFixup
  split <;> rfl

lemma mem_homeServerFixup (s : SynthState) (n : Node)
    (hn : n ∈ (homeServerFixup s).nodes) :
    ∃ m ∈ s.nodes, n = m ∨ (n.isCdnOrigin = m.isCdnOrigin ∧ n.isCdnEdge = m.isCdnEdge ∧ n.id = m.id) := by
  unfold homeServerFixup at hn
  split at hn
  · unfold updateNodeById at hn
    obtain ⟨m, hm, rfl⟩ := List.mem_map.mp hn
    refine ⟨m, hm, ?_⟩
    split
    · rename_i hid
      dsimp only
      split
      · exact Or.inr ⟨rfl, rfl, rfl⟩
      · exact Or.inl rfl
    · exact Or.inl rfl
  · exact ⟨n, hn, Or.inl rfl⟩

lemma mem_updateNodeById (l : List Node) (i : String) (f : Node → Node) (n : Node)
    (hn : n ∈ updateNodeById l i f) : ∃ m ∈ l, n = if m.id = i then f m else m := by
  unfold updateNodeById at hn
  obtain ⟨m, hm, rfl⟩ := List.mem_map.mp hn
  exact ⟨m, hm, rfl⟩

lemma find?_map_id_of_map (l : List Node) (g : Node → Node)
    (hid : ∀ n, (g n).id = n.id) (p : Node → Bool) (hp : ∀ n, p (g n) = p n) :
    ((l.map g).find? p).map (fun n => n.id) = (l.find? p).map (fun n => n.id) := by
  induction l with
  | nil => rfl
  | cons n l' ih =>
    rw [List.map_cons]
    by_cases hpn : p n = true
    · rw [List.find?_cons_of_pos _ (by rw [hp]; exact hpn), List.find?_cons_of_pos _ hpn]
      simp only [Option.map_some']
      exact congrArg some (hid n)
    · have hb : p n = false := by
        cases hpb : p n with
        | false => rfl
        | true => exact absurd hpb hpn
      rw [List.find?_cons_of_neg, List.find?_cons_of_neg _ (by rw [hb]; simp)]
      · exact ih
      · rw [hp, hb]; simp

lemma find?_map_id_updateNodeById (l : List Node) (i : String) (f : Node → Node)
    (hid : ∀ n, (f n).id = n.id) (p : Node → Bool) (hp : ∀ n, p (f n) = p n) :
    ((updateNodeById l i f).find? p).map (fun n => n.id) =
      (l.find? p).map (fun n => n.id) := by
  unfold updateNodeById
  refine find?_map_id_of_map l _ (fun n => ?_) p (fun n => ?_)
  · split
    · exact hid n
    · rfl
  · split
    · exact hp n
    · rfl

lemma findIdx?_none_aux {α : Type} (p : α → Bool) (l : List α)
    (h : ∀ x ∈ l, p x = false) : ∀ i, l.findIdx? p i = none := by
  induction l with
  | nil => intro i; rfl
  | cons a l' ih =>
    intro i
    unfold List.findIdx?
    rw [h a (by simp)]
    simp only [Bool.false_eq_true, if_false]
    exact ih (fun x hx => h x (by simp [hx])) (i + 1)

lemma findIdx?_eq_none_of_all {α : Type} (l : List α) (p : α → Bool)
    (h : ∀ x ∈ l, p x = false) : l.findIdx? p = none :=
  findIdx?_none_aux p l h 0

lemma jsIncludes_prefix6 (p q r u v w pre : String)
    (h : pre.data.isPrefixOf p.data = true) :
    jsIncludes (p ++ q ++ r ++ u ++ v ++ w) pre = true := by
  unfold jsIncludes
  apply charsInfix_of_isPrefixOf
  simp only [String.data_append]
  exact isPrefixOf_append_right _ _ _ (isPrefixOf_append_right _ _ _
    (isPrefixOf_append_right _ _ _ (isPrefixOf_append_right _ _ _
      (isPrefixOf_append_right _ _ _ h))))

lemma isCdnCategory_regular (a t : String) (i : ℕ) (lbl : Option String) :
    isCdnCategory (cdnRegularEdge a t i lbl) = true := by
  show jsIncludes ("edge-cdn-regular-" ++ a ++ "-" ++ t ++ "-" ++ toString i) "edge-cdn-" = true
  exact jsIncludes_prefix6 _ _ _ _ _ _ _ (by decide)

lemma isCdnCategory_final (a t : String) (i : ℕ) :
    isCdnCategory (cdnFinalEdge a t i) = true := by
  show jsIncludes ("edge-cdn-final-" ++ a ++ "-" ++ t ++ "-" ++ toString i) "edge-cdn-" = true
  exact jsIncludes_prefix6 _ _ _ _ _ _ _ (by decide)

lemma regularId_ne_finalId (a t a' t' : String) (i i' : ℕ) :
    edgeCdnRegularId a t i ≠ edgeCdnFinalId a' t' i' := by
  unfold edgeCdnRegularId edgeCdnFinalId
  simp only [String.append_assoc]
  exact append_left_ne "edge-cdn-regular-" "edge-cdn-final-" _ _ 9
    (by decide) (by decide) (by decide)

lemma finalId_getLast (a t : String) (i : ℕ) (c : Char)
    (hc : (toString i).data = [c]) :
    (edgeCdnFinalId a t i).data.getLast? = some c := by
  unfold edgeCdnFinalId
  exact getLast_append_digit _ _ _ hc

lemma finalId_ne_of_digit (a t a' t' : String) (i i' : ℕ) (c c' : Char)
    (hc : (toString i).data = [c]) (hc' : (toString i').data = [c'])
    (hne : c ≠ c') : edgeCdnFinalId a t i ≠ edgeCdnFinalId a' t' i' :=
  ne_of_getLast _ _ c c' (finalId_getLast a t i c hc) (finalId_getLast a' t' i' c' hc')
    hne

lemma cdnFinalTargetStep_eq (s : SynthState) (aid : String) (i : ℕ) (t tid : String)
    (hfind : (s.nodes.find? (cdnFinalTargetPred t)).map (fun n => n.id) = some tid)
    (hfresh : ∀ e ∈ s.edges, (e.id == edgeCdnFinalId aid tid i) = false) :
    cdnFinalTargetStep aid s (i, t) =
      { s with
        edges := s.edges ++ [cdnFinalEdge aid tid i],
        nodes := updateNodeById (updateNodeById s.nodes aid markCdnOrigin) tid
          markCdnEdge } := by
  obtain ⟨tn, hf, hid⟩ := Option.map_eq_some'.mp hfind
  subst hid
  unfold cdnFinalTargetStep
  rw [hf]
  dsimp only
  have hnone : s.edges.findIdx?
      (fun e => e.id == "edge-cdn-final-" ++ aid ++ "-" ++ tn.id ++ "-" ++ toString i) =
      none :=
    findIdx?_eq_none_of_all _ _ (fun e he => hfresh e he)
  rw [hnone]
  rfl

lemma filter_eq_singleton_of_imp {α : Type} (l : List α) (p q : α → Bool) (A : α)
    (hl : l.filter p = [A]) (hq : q A = true) (himp : ∀ n, q n = true → p n = true) :
    l.filter q = [A] := by
  induction l with
  | nil => simp at hl
  | cons n l' ih =>
    by_cases hpn : p n = true
    · rw [List.filter_cons_of_pos hpn] at hl
      have hnA : n = A ∧ l'.filter p = [] := by
        injection hl with h1 h2
        exact ⟨h1, h2⟩
      obtain ⟨rfl, hrest⟩ := hnA
      rw [List.filter_cons_of_pos hq]
      congr 1
      rw [List.filter_eq_nil_iff] at hrest ⊢
      intro x hx hqx
      exact hrest x hx (himp x hqx)
    · rw [List.filter_cons_of_neg hpn] at hl
      rw [List.filter_cons_of_neg (fun hq' => hpn (himp n hq'))]
      exact ih hl

lemma beq_false_of_string_ne (a b : String) (h : a ≠ b) : (a == b) = false := by
  cases hb : (a == b) with
  | false => rfl
  | true => exact absurd (by exact eq_of_beq hb) h

lemma cdnFinalSourceStep_cdn (s : SynthState) (A : Node) (dv : Diversion)
    (x y z tx ty tz : String)
    (hAid : (A.id == ubuntuId) = false)
    (hAdv : A.diversion = some dv)
    (htg : dv.target = DivTarget.multi [x, y, z])
    (hfx : (s.nodes.find? (cdnFinalTargetPred x)).map (fun n => n.id) = some tx)
    (hfy : (s.nodes.find? (cdnFinalTargetPred y)).map (fun n => n.id) = some ty)
    (hfz : (s.nodes.find? (cdnFinalTargetPred z)).map (fun n => n.id) = some tz)
    (hfr0 : ∀ e ∈ s.edges, (e.id == edgeCdnFinalId A.id tx 0) = false)
    (hfr1 : ∀ e ∈ s.edges, (e.id == edgeCdnFinalId A.id ty 1) = false)
    (hfr2 : ∀ e ∈ s.edges, (e.id == edgeCdnFinalId A.id tz 2) = false) :
    cdnFinalSourceStep s A =
      { s with
        edges := s.edges ++ [cdnFinalEdge A.id tx 0, cdnFinalEdge A.id ty 1,
          cdnFinalEdge A.id tz 2],
        nodes := updateNodeById (updateNodeById (updateNodeById (updateNodeById
          (updateNodeById (updateNodeById s.nodes A.id markCdnOrigin) tx markCdnEdge)
          A.id markCdnOrigin) ty markCdnEdge) A.id markCdnOrigin) tz markCdnEdge } := by
  unfold cdnFinalSourceStep
  rw [hAid]
  simp only [Bool.false_eq_true, if_false]
  rw [hAdv]
  dsimp only
  rw [htg]
  dsimp only
  rw [show ([x, y, z].enum) = [(0, x), (1, y), (2, z)] from rfl]
  have h0 := cdnFinalTargetStep_eq s A.id 0 x tx hfx hfr0
  have hfy1 : (((updateNodeById (updateNodeById s.nodes A.id markCdnOrigin) tx
      markCdnEdge).find? (cdnFinalTargetPred y)).map (fun n => n.id)) = some ty := by
    rw [find?_map_id_updateNodeById _ _ markCdnEdge (fun n => rfl)
        (cdnFinalTargetPred y) (fun n => rfl),
      find?_map_id_updateNodeById _ _ markCdnOrigin (fun n => rfl)
        (cdnFinalTargetPred y) (fun n => rfl)]
    exact hfy
  have hfr1' : ∀ e ∈ s.edges ++ [cdnFinalEdge A.id tx 0],
      (e.id == edgeCdnFinalId A.id ty 1) = false := by
    intro e he
    rcases List.mem_append.mp he with hl | hr
    · exact hfr1 e hl
    · have he0 : e = cdnFinalEdge A.id tx 0 := by simpa using hr
      subst he0
      exact beq_false_of_string_ne _ _
        (finalId_ne_of_digit _ _ _ _ 0 1 '0' '1' rfl rfl (by decide))
  have h1 := cdnFinalTargetStep_eq { s with
      edges := s.edges ++ [cdnFinalEdge A.id tx 0],
      nodes := updateNodeById (updateNodeById s.nodes A.id markCdnOrigin) tx
        markCdnEdge } A.id 1 y ty hfy1 hfr1'
  have hfz2 : (((updateNodeById (updateNodeById (updateNodeById (updateNodeById
      s.nodes A.id markCdnOrigin) tx markCdnEdge) A.id markCdnOrigin) ty
      markCdnEdge).find? (cdnFinalTargetPred z)).map (fun n => n.id)) = some tz := by
    rw [find?_map_id_updateNodeById _ _ markCdnEdge (fun n => rfl)
        (cdnFinalTargetPred z) (fun n => rfl),
      find?_map_id_updateNodeById _ _ markCdnOrigin (fun n => rfl)
        (cdnFinalTargetPred z) (fun n => rfl),
      find?_map_id_updateNodeById _ _ markCdnEdge (fun n => rfl)
        (cdnFinalTargetPred z) (fun n => rfl),
      find?_map_id_updateNodeById _ _ markCdnOrigin (fun n => rfl)
        (cdnFinalTargetPred z) (fun n => rfl)]
    exact hfz
  have hfr2' : ∀ e ∈ s.edges ++ [cdnFinalEdge A.id tx 0] ++ [cdnFinalEdge A.id ty 1],
      (e.id == edgeCdnFinalId A.id tz 2) = false := by
    intro e he
    rcases List.mem_append.mp he with hl | hr
    · rcases List.mem_append.mp hl with hll | hlr
      · exact hfr2 e hll
      · have he0 : e = cdnFinalEdge A.id tx 0 := by simpa using hlr
        subst he0
        exact beq_false_of_string_ne _ _
          (finalId_ne_of_digit _ _ _ _ 0 2 '0' '2' rfl rfl (by decide))
    · have he1 : e = cdnFinalEdge A.id ty 1 := by simpa using hr
      subst he1
      exact beq_false_of_string_ne _ _
        (finalId_ne_of_digit _ _ _ _ 1 2 '1' '2' rfl rfl (by decide))
  have h2 := cdnFinalTargetStep_eq { s with
      edges := s.edges ++ [cdnFinalEdge A.id tx 0] ++ [cdnFinalEdge A.id ty 1],
      nodes := updateNodeById (updateNodeById (updateNodeById (updateNodeById
        s.nodes A.id markCdnOrigin) tx markCdnEdge) A.id markCdnOrigin) ty
        markCdnEdge } A.id 2 z tz hfz2 hfr2'
  rw [List.foldl_cons, h0, List.foldl_cons]
  rw [h1]
  rw [List.foldl_cons, h2, List.foldl_nil]
  simp

lemma cdnFinalPass_cdn (s : SynthState) (A : Node) (dv : Diversion)
    (x y z tx ty tz : String)
    (hA : s.nodes.filter cdnSourcePred = [A])
    (hub : s.nodes.find? (fun n => n.id == ubuntuId) = none)
    (hAid : (A.id == ubuntuId) = false)
    (hAdv : A.diversion = some dv)
    (htg : dv.target = DivTarget.multi [x, y, z])
    (hfx : (s.nodes.find? (cdnFinalTargetPred x)).map (fun n => n.id) = some tx)
    (hfy : (s.nodes.find? (cdnFinalTargetPred y)).map (fun n => n.id) = some ty)
    (hfz : (s.nodes.find? (cdnFinalTargetPred z)).map (fun n => n.id) = some tz)
    (hfr0 : ∀ e ∈ s.edges, (e.id == edgeCdnFinalId A.id tx 0) = false)
    (hfr1 : ∀ e ∈ s.edges, (e.id == edgeCdnFinalId A.id ty 1) = false)
    (hfr2 : ∀ e ∈ s.edges, (e.id == edgeCdnFinalId A.id tz 2) = false) :
    cdnFinalPass s =
      { s with
        edges := s.edges ++ [cdnFinalEdge A.id tx 0, cdnFinalEdge A.id ty 1,
          cdnFinalEdge A.id tz 2],
        nodes := updateNodeById (updateNodeById (updateNodeById (updateNodeById
          (updateNodeById (updateNodeById s.nodes A.id markCdnOrigin) tx markCdnEdge)
          A.id markCdnOrigin) ty markCdnEdge) A.id markCdnOrigin) tz markCdnEdge } := by
  unfold cdnFinalPass
  rw [hA]
  simp only [List.isEmpty_cons, Bool.false_eq_true, if_false]
  rw [cdnFinalDirectBlock_noop s hub]
  rw [List.foldl_cons, List.foldl_nil]
  exact cdnFinalSourceStep_cdn s A dv x y z tx ty tz hAid hAdv htg hfx hfy hfz
    hfr0 hfr1 hfr2

lemma updateNodeById_sets_origin (l : List Node) (i : String) :
    ∀ n ∈ updateNodeById l i markCdnOrigin, n.id = i → n.isCdnOrigin = true := by
  intro n hn hid
  obtain ⟨m, hm, hcase⟩ := mem_updateNodeById l i markCdnOrigin n hn
  by_cases hmi : m.id = i
  · rw [if_pos hmi] at hcase
    subst hcase
    rfl
  · rw [if_neg hmi] at hcase
    subst hcase
    exact absurd hid hmi

lemma updateNodeById_sets_edge (l : List Node) (i : String) :
    ∀ n ∈ updateNodeById l i markCdnEdge, n.id = i → n.isCdnEdge = true := by
  intro n hn hid
  obtain ⟨m, hm, hcase⟩ := mem_updateNodeById l i markCdnEdge n hn
  by_cases hmi : m.id = i
  · rw [if_pos hmi] at hcase
    subst hcase
    rfl
  · rw [if_neg hmi] at hcase
    subst hcase
    exact absurd hid hmi

lemma updateNodeById_preserve (l : List Node) (i : String) (f : Node → Node)
    (P : Node → Prop) (hf : ∀ m, P m → P (f m)) (h : ∀ m ∈ l, P m) :
    ∀ n ∈ updateNodeById l i f, P n := by
  intro n hn
  obtain ⟨m, hm, hcase⟩ := mem_updateNodeById l i f n hn
  by_cases hmi : m.id = i
  · rw [if_pos hmi] at hcase
    subst hcase
    exact hf _ (h _ hm)
  · rw [if_neg hmi] at hcase
    subst hcase
    exact h _ hm

lemma find?_eq_none_updateNodeById (l : List Node) (i : String) (f : Node → Node)
    (hid : ∀ n, (f n).id = n.id) (p : Node → Bool) (hp : ∀ n, p (f n) = p n)
    (h : l.find? p = none) : (updateNodeById l i f).find? p = none := by
  have hm := find?_map_id_updateNodeById l i f hid p hp
  rw [h] at hm
  exact Option.map_eq_none'.mp hm

lemma beq_finalId_false_of_nocdn (e : Edge) (he : jsIncludes e.id "edge-cdn-" = false)
    (a t : String) (i : ℕ) : (e.id == edgeCdnFinalId a t i) = false := by
  cases hb : (e.id == edgeCdnFinalId a t i) with
  | false => rfl
  | true =>
    have hq : e.id = edgeCdnFinalId a t i := eq_of_beq hb
    have hc : jsIncludes (edgeCdnFinalId a t i) "edge-cdn-" = true := by
      unfold edgeCdnFinalId
      exact jsIncludes_prefix6 _ _ _ _ _ _ _ (by decide)
    rw [hq, hc] at he
    cases he

/-- C3 (amended): for a state whose only diversion-carrying node `A` holds a
`cdn`/`innerserver` diversion onto three targets that all resolve (and none of
the name-literal special blocks fires), the CDN-category edges of the final
output are exactly six — each target is linked from `A` once by the regular
pass and once more by the final pass — and `A` is flagged CDN-origin while
each resolved target is flagged CDN-edge. -/
theorem cdnMultiTargetFanOut (st : SynthState) (now : ℕ) (A : Node) (dv : Diversion)
    (x y z tx ty tz : String)
    (hA1 : st.nodes.filter (fun n => n.diversion.isSome) = [A])
    (hAdv : A.diversion = some dv)
    (ht : dv.traffic_type = "cdn") (htt : dv.target_type = "innerserver")
    (htg : dv.target = DivTarget.multi [x, y, z])
    (hub : st.nodes.find? (fun n => n.id == ubuntuId) = none)
    (hd3 : st.nodes.find? (fun n => n.id == "device-AS2-device3") = none)
    (hAid : (A.id == ubuntuId) = false)
    (hrx : (st.nodes.find? (cdnRegularTargetPred x)).map (fun n => n.id) = some tx)
    (hry : (st.nodes.find? (cdnRegularTargetPred y)).map (fun n => n.id) = some ty)
    (hrz : (st.nodes.find? (cdnRegularTargetPred z)).map (fun n => n.id) = some tz)
    (hfx : (st.nodes.find? (cdnFinalTargetPred x)).map (fun n => n.id) = some tx)
    (hfy : (st.nodes.find? (cdnFinalTargetPred y)).map (fun n => n.id) = some ty)
    (hfz : (st.nodes.find? (cdnFinalTargetPred z)).map (fun n => n.id) = some tz)
    (hpre : ∀ e ∈ st.edges, jsIncludes e.id "edge-cdn-" = false) :
    ((diversionAndCdnStages now st).edges.filter isCdnCategory).map
        (fun e => (e.id, e.source, e.target)) =
      [(edgeCdnRegularId A.id tx 0, A.id, tx), (edgeCdnRegularId A.id ty 1, A.id, ty),
       (edgeCdnRegularId A.id tz 2, A.id, tz), (edgeCdnFinalId A.id tx 0, A.id, tx),
       (edgeCdnFinalId A.id ty 1, A.id, ty), (edgeCdnFinalId A.id tz 2, A.id, tz)] ∧
    ∀ n ∈ (diversionAndCdnStages now st).nodes,
      (n.id = A.id → n.isCdnOrigin = true) ∧
      ((n.id = tx ∨ n.id = ty ∨ n.id = tz) → n.isCdnEdge = true) := by
  have hq : cdnSourcePred A = true := by
    simp [cdnSourcePred, hAdv, ht, htg]
  have himp : ∀ n : Node, cdnSourcePred n = true → n.diversion.isSome = true := by
    intro n h
    unfold cdnSourcePred at h
    cases hd : n.diversion with
    | none => rw [hd] at h; cases h
    | some d => rfl
  have hA' : st.nodes.filter cdnSourcePred = [A] :=
    filter_eq_singleton_of_imp st.nodes _ cdnSourcePred A hA1 hq himp
  have hDP := deviceDiversionPass_cdn st A dv x y z tx ty tz hA1 hAdv ht htt htg
    hrx hry hrz
  have hfr : ∀ (t' : String) (i' : ℕ), ∀ e ∈ st.edges ++
      [cdnRegularEdge A.id tx 0 dv.label, cdnRegularEdge A.id ty 1 dv.label,
        cdnRegularEdge A.id tz 2 dv.label],
      (e.id == edgeCdnFinalId A.id t' i') = false := by
    intro t' i' e he
    rcases List.mem_append.mp he with hl | hr
    · exact beq_finalId_false_of_nocdn e (hpre e hl) _ _ _
    · simp only [List.mem_cons, List.not_mem_nil, or_false] at hr
      rcases hr with rfl | rfl | rfl
      · exact beq_false_of_string_ne _ _ (regularId_ne_finalId _ _ _ _ _ _)
      · exact beq_false_of_string_ne _ _ (regularId_ne_finalId _ _ _ _ _ _)
      · exact beq_false_of_string_ne _ _ (regularId_ne_finalId _ _ _ _ _ _)
  have h1 : device3Special { st with edges := st.edges ++
      [cdnRegularEdge A.id tx 0 dv.label, cdnRegularEdge A.id ty 1 dv.label,
        cdnRegularEdge A.id tz 2 dv.label] } = { st with edges := st.edges ++
      [cdnRegularEdge A.id tx 0 dv.label, cdnRegularEdge A.id ty 1 dv.label,
        cdnRegularEdge A.id tz 2 dv.label] } :=
    device3Special_noop _ hd3
  have h2 : ubuntuCdnSpecial { st with edges := st.edges ++
      [cdnRegularEdge A.id tx 0 dv.label, cdnRegularEdge A.id ty 1 dv.label,
        cdnRegularEdge A.id tz 2 dv.label] } = { st with edges := st.edges ++
      [cdnRegularEdge A.id tx 0 dv.label, cdnRegularEdge A.id ty 1 dv.label,
        cdnRegularEdge A.id tz 2 dv.label] } :=
    ubuntuCdnSpecial_noop _ hub
  have h3 : cdnTestPass now { st with edges := st.edges ++
      [cdnRegularEdge A.id tx 0 dv.label, cdnRegularEdge A.id ty 1 dv.label,
        cdnRegularEdge A.id tz 2 dv.label] } = { st with edges := st.edges ++
      [cdnRegularEdge A.id tx 0 dv.label, cdnRegularEdge A.id ty 1 dv.label,
        cdnRegularEdge A.id tz 2 dv.label] } :=
    cdnTestPass_noop now _ hub
  have hC2 : cdnFinalPass { st with edges := st.edges ++
      [cdnRegularEdge A.id tx 0 dv.label, cdnRegularEdge A.id ty 1 dv.label,
        cdnRegularEdge A.id tz 2 dv.label] } =
      { st with
        edges := st.edges ++
          [cdnRegularEdge A.id tx 0 dv.label, cdnRegularEdge A.id ty 1 dv.label,
            cdnRegularEdge A.id tz 2 dv.label] ++
          [cdnFinalEdge A.id tx 0, cdnFinalEdge A.id ty 1, cdnFinalEdge A.id tz 2],
        nodes := updateNodeById (updateNodeById (updateNodeById (updateNodeById
          (updateNodeById (updateNodeById st.nodes A.id markCdnOrigin) tx markCdnEdge)
          A.id markCdnOrigin) ty markCdnEdge) A.id markCdnOrigin) tz markCdnEdge } :=
    cdnFinalPass_cdn _ A dv x y z tx ty tz hA' hub hAid hAdv htg hfx hfy hfz
      (hfr tx 0) (hfr ty 1) (hfr tz 2)
  have hub6 : (updateNodeById (updateNodeById (updateNodeById (updateNodeById
      (updateNodeById (updateNodeById st.nodes A.id markCdnOrigin) tx markCdnEdge)
      A.id markCdnOrigin) ty markCdnEdge) A.id markCdnOrigin) tz markCdnEdge).find?
      (fun n => n.id == ubuntuId) = none := by
    apply find?_eq_none_updateNodeById _ _ markCdnEdge (fun n => rfl)
      (fun n => n.id == ubuntuId) (fun n => rfl)
    apply find?_eq_none_updateNodeById _ _ markCdnOrigin (fun n => rfl)
      (fun n => n.id == ubuntuId) (fun n => rfl)
    apply find?_eq_none_updateNodeById _ _ markCdnEdge (fun n => rfl)
      (fun n => n.id == ubuntuId) (fun n => rfl)
    apply find?_eq_none_updateNodeById _ _ markCdnOrigin (fun n => rfl)
      (fun n => n.id == ubuntuId) (fun n => rfl)
    apply find?_eq_none_updateNodeById _ _ markCdnEdge (fun n => rfl)
      (fun n => n.id == ubuntuId) (fun n => rfl)
    apply find?_eq_none_updateNodeById _ _ markCdnOrigin (fun n => rfl)
      (fun n => n.id == ubuntuId) (fun n => rfl)
    exact hub
  have h4 : staticCdnPass
      { st with
        edges := st.edges ++
          [cdnRegularEdge A.id tx 0 dv.label, cdnRegularEdge A.id ty 1 dv.label,
            cdnRegularEdge A.id tz 2 dv.label] ++
          [cdnFinalEdge A.id tx 0, cdnFinalEdge A.id ty 1, cdnFinalEdge A.id tz 2],
        nodes := updateNodeById (updateNodeById (updateNodeById (updateNodeById
          (updateNodeById (updateNodeById st.nodes A.id markCdnOrigin) tx markCdnEdge)
          A.id markCdnOrigin) ty markCdnEdge) A.id markCdnOrigin) tz markCdnEdge } =
      { st with
        edges := st.edges ++
          [cdnRegularEdge A.id tx 0 dv.label, cdnRegularEdge A.id ty 1 dv.label,
            cdnRegularEdge A.id tz 2 dv.label] ++
          [cdnFinalEdge A.id tx 0, cdnFinalEdge A.id ty 1, cdnFinalEdge A.id tz 2],
        nodes := updateNodeById (updateNodeById (updateNodeById (updateNodeById
          (updateNodeById (updateNodeById st.nodes A.id markCdnOrigin) tx markCdnEdge)
          A.id markCdnOrigin) ty markCdnEdge) A.id markCdnOrigin) tz markCdnEdge } :=
    staticCdnPass_noop _ hub6
  have hAll : diversionAndCdnStages now st = homeServerFixup
      { st with
        edges := st.edges ++
          [cdnRegularEdge A.id tx 0 dv.label, cdnRegularEdge A.id ty 1 dv.label,
            cdnRegularEdge A.id tz 2 dv.label] ++
          [cdnFinalEdge A.id tx 0, cdnFinalEdge A.id ty 1, cdnFinalEdge A.id tz 2],
        nodes := updateNodeById (updateNodeById (updateNodeById (updateNodeById
          (updateNodeById (updateNodeById st.nodes A.id markCdnOrigin) tx markCdnEdge)
          A.id markCdnOrigin) ty markCdnEdge) A.id markCdnOrigin) tz markCdnEdge } := by
    show homeServerFixup (staticCdnPass (cdnFinalPass (cdnTestPass now
      (ubuntuCdnSpecial (device3Special (deviceDiversionPass st)))))) = _
    rw [hDP, h1, h2, h3, hC2, h4]
  rw [hAll]
  constructor
  · rw [homeServerFixup_edges]
    have hnil : st.edges.filter isCdnCategory = [] := by
      rw [List.filter_eq_nil_iff]
      intro e he hc
      have hb := hpre e he
      rw [show isCdnCategory e = jsIncludes e.id "edge-cdn-" from rfl] at hc
      rw [hb] at hc
      cases hc
    have h3r : [cdnRegularEdge A.id tx 0 dv.label, cdnRegularEdge A.id ty 1 dv.label,
        cdnRegularEdge A.id tz 2 dv.label].filter isCdnCategory =
        [cdnRegularEdge A.id tx 0 dv.label, cdnRegularEdge A.id ty 1 dv.label,
          cdnRegularEdge A.id tz 2 dv.label] := by
      rw [List.filter_cons_of_pos (isCdnCategory_regular A.id tx 0 dv.label),
        List.filter_cons_of_pos (isCdnCategory_regular A.id ty 1 dv.label),
        List.filter_cons_of_pos (isCdnCategory_regular A.id tz 2 dv.label),
        List.filter_nil]
    have h3f : [cdnFinalEdge A.id tx 0, cdnFinalEdge A.id ty 1,
        cdnFinalEdge A.id tz 2].filter isCdnCategory =
        [cdnFinalEdge A.id tx 0, cdnFinalEdge A.id ty 1, cdnFinalEdge A.id tz 2] := by
      rw [List.filter_cons_of_pos (isCdnCategory_final A.id tx 0),
        List.filter_cons_of_pos (isCdnCategory_final A.id ty 1),
        List.filter_cons_of_pos (isCdnCategory_final A.id tz 2), List.filter_nil]
    show (((st.edges ++ [cdnRegularEdge A.id tx 0 dv.label,
        cdnRegularEdge A.id ty 1 dv.label, cdnRegularEdge A.id tz 2 dv.label]) ++
        [cdnFinalEdge A.id tx 0, cdnFinalEdge A.id ty 1,
          cdnFinalEdge A.id tz 2]).filter isCdnCategory).map
        (fun e => (e.id, e.source, e.target)) =
      [(edgeCdnRegularId A.id tx 0, A.id, tx), (edgeCdnRegularId A.id ty 1, A.id, ty),
       (edgeCdnRegularId A.id tz 2, A.id, tz), (edgeCdnFinalId A.id tx 0, A.id, tx),
       (edgeCdnFinalId A.id ty 1, A.id, ty), (edgeCdnFinalId A.id tz 2, A.id, tz)]
    rw [List.filter_append, List.filter_append, hnil, h3r, h3f]
    rfl
  · intro n hn
    obtain ⟨m, hm, hcase⟩ := mem_homeServerFixup _ n hn
    have hPO : ∀ q ∈ (updateNodeById (updateNodeById (updateNodeById (updateNodeById
        (updateNodeById (updateNodeById st.nodes A.id markCdnOrigin) tx markCdnEdge)
        A.id markCdnOrigin) ty markCdnEdge) A.id markCdnOrigin) tz markCdnEdge),
        q.id = A.id → q.isCdnOrigin = true := by
      refine updateNodeById_preserve _ tz markCdnEdge
        (fun q => q.id = A.id → q.isCdnOrigin = true) (fun mq hp hq => hp hq) ?_
      exact updateNodeById_sets_origin _ A.id
    have hPEx : ∀ q ∈ (updateNodeById (updateNodeById (updateNodeById (updateNodeById
        (updateNodeById (updateNodeById st.nodes A.id markCdnOrigin) tx markCdnEdge)
        A.id markCdnOrigin) ty markCdnEdge) A.id markCdnOrigin) tz markCdnEdge),
        q.id = tx → q.isCdnEdge = true := by
      refine updateNodeById_preserve _ tz markCdnEdge
        (fun q => q.id = tx → q.isCdnEdge = true) (fun mq hp hq => rfl) ?_
      refine updateNodeById_preserve _ A.id markCdnOrigin
        (fun q => q.id = tx → q.isCdnEdge = true) (fun mq hp hq => hp hq) ?_
      refine updateNodeById_preserve _ ty markCdnEdge
        (fun q => q.id = tx → q.isCdnEdge = true) (fun mq hp hq => rfl) ?_
      refine updateNodeById_preserve _ A.id markCdnOrigin
        (fun q => q.id = tx → q.isCdnEdge = true) (fun mq hp hq => hp hq) ?_
      exact updateNodeById_sets_edge _ tx
    have hPEy : ∀ q ∈ (updateNodeById (updateNodeById (updateNodeById (updateNodeById
        (updateNodeById (updateNodeById st.nodes A.id markCdnOrigin) tx markCdnEdge)
        A.id markCdnOrigin) ty markCdnEdge) A.id markCdnOrigin) tz markCdnEdge),
        q.id = ty → q.isCdnEdge = true := by
      refine updateNodeById_preserve _ tz markCdnEdge
        (fun q => q.id = ty → q.isCdnEdge = true) (fun mq hp hq => rfl) ?_
      refine updateNodeById_preserve _ A.id markCdnOrigin
        (fun q => q.id = ty → q.isCdnEdge = true) (fun mq hp hq => hp hq) ?_
      exact updateNodeById_sets_edge _ ty
    have hPEz : ∀ q ∈ (updateNodeById (updateNodeById (updateNodeById (updateNodeById
        (updateNodeById (updateNodeById st.nodes A.id markCdnOrigin) tx markCdnEdge)
        A.id markCdnOrigin) ty markCdnEdge) A.id markCdnOrigin) tz markCdnEdge),
        q.id = tz → q.isCdnEdge = true :=
      updateNodeById_sets_edge _ tz
    have hmO := hPO m hm
    have hmEx := hPEx m hm
    have hmEy := hPEy m hm
    have hmEz := hPEz m hm
    rcases hcase with rfl | hflags
    · refine ⟨hmO, fun hor => ?_⟩
      rcases hor with h | h | h
      · exact hmEx h
      · exact hmEy h
      · exact hmEz h
    · obtain ⟨hO, hE, hid⟩ := hflags
      refine ⟨fun h => ?_, fun hor => ?_⟩
      · rw [hO]
        exact hmO (by rw [← hid]; exact h)
      · rw [hE]
        rcases hor with h | h | h
        · exact hmEx (by rw [← hid]; exact h)
        · exact hmEy (by rw [← hid]; exact h)
        · exact hmEz (by rw [← hid]; exact h)

/-- Witness for C3: a concrete four-node state exercising the fan-out. -/
theorem cdnMultiTargetFanOut_witness :
    stFanW.nodes.filter (fun n => n.diversion.isSome) = [nodeFanA] ∧
    (((diversionAndCdnStages 7 stFanW).edges.filter isCdnCategory).map
        (fun e => (e.id, e.source, e.target)) =
      [(edgeCdnRegularId "device-as1-orig" "device-net-nx" 0, "device-as1-orig",
          "device-net-nx"),
        (edgeCdnRegularId "device-as1-orig" "device-net-ny" 1, "device-as1-orig",
          "device-net-ny"),
        (edgeCdnRegularId "device-as1-orig" "device-net-nz" 2, "device-as1-orig",
          "device-net-nz"),
        (edgeCdnFinalId "device-as1-orig" "device-net-nx" 0, "device-as1-orig",
          "device-net-nx"),
        (edgeCdnFinalId "device-as1-orig" "device-net-ny" 1, "device-as1-orig",
          "device-net-ny"),
        (edgeCdnFinalId "device-as1-orig" "device-net-nz" 2, "device-as1-orig",
          "device-net-nz")] ∧
      ∀ n ∈ (diversionAndCdnStages 7 stFanW).nodes,
        (n.id = nodeFanA.id → n.isCdnOrigin = true) ∧
        ((n.id = "device-net-nx" ∨ n.id = "device-net-ny" ∨ n.id = "device-net-nz") →
          n.isCdnEdge = true)) := by
  constructor
  · decide
  · exact cdnMultiTargetFanOut stFanW 7 nodeFanA dvFanW "nx" "ny" "nz"
      "device-net-nx" "device-net-ny" "device-net-nz" (by decide) rfl rfl rfl rfl
      (by decide) (by decide) (by decide) (by decide) (by decide) (by decide)
      (by decide) (by decide) (by decide) (by decide)

lemma string_append_left_cancel (p a b : String) (h : p ++ a = p ++ b) : a = b := by
  have hd : (p ++ a).data = (p ++ b).data := by rw [h]
  rw [String.data_append, String.data_append] at hd
  have hab := List.append_cancel_left hd
  cases a
  cases b
  simp only at hab
  rw [hab]

lemma device_ne_network (r nm : String) : "device-" ++ r ≠ "network-" ++ nm :=
  append_left_ne "device-" "network-" r nm 0 (by decide) (by decide) (by decide)

lemma GroupParentSpec_of_device (pm : List (String × String)) (n : Node)
    (r : String) (h : n.id = "device-" ++ r) : GroupParentSpec pm n := by
  intro nm p hid hl
  rw [h] at hid
  exact absurd hid (device_ne_network r nm)

lemma GroupParentSpec_of_noprefix (pm : List (String × String)) (n : Node)
    (h : ("network-".data.isPrefixOf n.id.data) = false) : GroupParentSpec pm n := by
  intro nm p hid hl
  have hp : "network-".data.isPrefixOf n.id.data = true := by
    rw [hid, String.data_append]
    exact isPrefixOf_append_right _ _ _ (by decide)
  rw [hp] at h
  cases h

lemma foldl_preserve {α β : Type} (step : β → α → β) (Q : β → Prop) (l : List α)
    (hstep : ∀ b a, a ∈ l → Q b → Q (step b a)) :
    ∀ b, Q b → Q (l.foldl step b) := by
  induction l with
  | nil => intro b hb; exact hb
  | cons a l ih =>
    intro b hb
    rw [List.foldl_cons]
    exact ih (fun b a ha hb => hstep b a (List.mem_cons_of_mem _ ha) hb)
      (step b a) (hstep b a (by simp) hb)

lemma foldlM_preserve {α β : Type} (step : β → α → Except String β) (Q : β → Prop)
    (l : List α) (hstep : ∀ b a b', a ∈ l → Q b → step b a = .ok b' → Q b') :
    ∀ b b', Q b → l.foldlM step b = .ok b' → Q b' := by
  induction l with
  | nil =>
    intro b b' hb h
    injection h with h
    rw [← h]
    exact hb
  | cons a l ih =>
    intro b b' hb h
    rw [List.foldlM_cons] at h
    cases hs : step b a with
    | error e => rw [hs] at h; injection h
    | ok b1 =>
      rw [hs] at h
      have h' : l.foldlM step b1 = .ok b' := h
      exact ih (fun b a b' ha => hstep b a b' (List.mem_cons_of_mem _ ha)) b1 b'
        (hstep b a b1 (by simp) hb hs) h'

lemma processRegularDevice_nodes_sub (name networkId gatewayId : String) (w : ℚ)
    (rc : ℕ) (st : SynthState) (i : ℕ) (d : Device) :
    ∀ n ∈ (processRegularDevice name networkId gatewayId w rc st i d).nodes,
      n ∈ st.nodes ∨ n.id = "device-" ++ name ++ "-" ++ d.name := by
  intro n hn
  unfold processRegularDevice at hn
  dsimp only at hn
  repeat' split at hn
  all_goals dsimp only at hn
  all_goals rcases List.mem_append.mp hn with hl | hr
  all_goals try (exact Or.inl hl)
  all_goals simp only [List.mem_singleton] at hr
  all_goals subst hr
  all_goals exact Or.inr rfl

lemma processSubGatewayDevice_nodes_sub (name networkId gatewayId : String)
    (st : SynthState) (i : ℕ) (d : Device) :
    ∀ n ∈ (processSubGatewayDevice name networkId gatewayId st i d).nodes,
      n ∈ st.nodes ∨ n.id = "device-" ++ name ++ "-" ++ d.name := by
  intro n hn
  unfold processSubGatewayDevice at hn
  repeat' (first | split at hn | dsimp only at hn)
  all_goals try (exact Or.inl hn)
  all_goals rcases List.mem_append.mp hn with hl | hr
  all_goals try (exact Or.inl hl)
  all_goals simp only [List.mem_singleton] at hr
  all_goals subst hr
  all_goals exact Or.inr rfl

lemma gatewayInterfaceEdges_nodes (gatewayId : String) (st : SynthState)
    (intf : NetInterface) :
    (gatewayInterfaceEdges gatewayId st intf).nodes = st.nodes := by
  unfold gatewayInterfaceEdges
  repeat' split
  all_goals rfl

lemma buildParentChildMaps_eq (privates : List (String × PrivateNetwork)) :
    buildParentChildMaps privates =
      privates.foldl (parentStep (networkNames privates)) ([], []) := rfl

lemma find?_key_map_keyfix (m : List (String × List String)) (k' : String)
    (g : String × List String → String × List String) (hg : ∀ p, (g p).1 = p.1) :
    (m.map g).find? (fun p => p.1 = k') = (m.find? (fun p => p.1 = k')).map g := by
  induction m with
  | nil => rfl
  | cons e m ih =>
    rw [List.map_cons]
    by_cases he : e.1 = k'
    · rw [List.find?_cons_of_pos _ (by simp [hg, he]),
        List.find?_cons_of_pos _ (by simp [he])]
      rfl
    · rw [List.find?_cons_of_neg _ (by simp [hg, he]),
        List.find?_cons_of_neg _ (by simp [he])]
      exact ih

lemma lookupChildren_eq_of_find (m : List (String × List String)) (k : String)
    (e : String × List String) (hf : m.find? (fun p => p.1 = k) = some e) :
    lookupChildren m k = e.2 := by
  unfold lookupChildren
  rw [hf]
  rfl

lemma lookupChildren_eq_nil (m : List (String × List String)) (k : String)
    (hf : m.find? (fun p => p.1 = k) = none) : lookupChildren m k = [] := by
  unfold lookupChildren
  rw [hf]
  rfl

lemma lookupChildren_childAppend (m : List (String × List String)) (k v k' : String) :
    lookupChildren (childAppend m k v) k' =
      if k' = k then lookupChildren m k ++ [v] else lookupChildren m k' := by
  unfold childAppend
  split
  · rename_i hsome
    unfold lookupChildren
    rw [find?_key_map_keyfix m k' _ (fun p => by split <;> rfl)]
    by_cases hk : k' = k
    · subst hk
      rw [if_pos rfl]
      cases hf : m.find? (fun p => p.1 = k') with
      | none => rw [hf] at hsome; simp at hsome
      | some e =>
        have he : e.1 = k' := by simpa using List.find?_some hf
        simp only [Option.map_some', Option.getD_some]
        rw [if_pos he]
    · rw [if_neg hk]
      cases hf : m.find? (fun p => p.1 = k') with
      | none => rfl
      | some e =>
        have he : e.1 = k' := by simpa using List.find?_some hf
        simp only [Option.map_some', Option.getD_some]
        rw [if_neg (by rw [he]; exact hk)]
  · rename_i hnone
    have hfm : m.find? (fun p => p.1 = k) = none := by
      cases hf : m.find? (fun p => p.1 = k) with
      | none => rfl
      | some e => rw [hf] at hnone; simp at hnone
    by_cases hk : k' = k
    · subst hk
      rw [if_pos rfl, lookupChildren_eq_nil m k' hfm]
      unfold lookupChildren
      rw [List.find?_append, hfm]
      simp [List.find?]
    · rw [if_neg hk]
      unfold lookupChildren
      rw [List.find?_append]
      have h2 : ([(k, [v])] : List (String × List String)).find? (fun p => p.1 = k') =
          none := by
        refine find?_eq_none_of_all _ _ (fun x hx => ?_)
        simp only [List.mem_singleton] at hx
        subst hx
        exact decide_eq_false (fun h => hk h.symm)
      rw [h2]
      cases hf : m.find? (fun p => p.1 = k') <;> rfl

lemma lookupStr_append_left (m1 m2 : List (String × String)) (k : String)
    (h : (lookupStr m1 k).isSome = true) : lookupStr (m1 ++ m2) k = lookupStr m1 k := by
  unfold lookupStr at h ⊢
  rw [List.find?_append]
  cases hf : m1.find? (fun p => p.1 = k) with
  | none => rw [hf] at h; simp at h
  | some e => rfl

lemma lookupStr_append_right (m1 m2 : List (String × String)) (k : String)
    (h : lookupStr m1 k = none) : lookupStr (m1 ++ m2) k = lookupStr m2 k := by
  unfold lookupStr at h ⊢
  rw [List.find?_append]
  cases hf : m1.find? (fun p => p.1 = k) with
  | none => rfl
  | some e => rw [hf] at h; simp at h

lemma lookupStr_none_of_keys (m : List (String × String)) (k : String)
    (h : ∀ kv ∈ m, kv.1 ≠ k) : lookupStr m k = none := by
  unfold lookupStr
  rw [find?_eq_none_of_all _ _ (fun kv hkv => decide_eq_false (h kv hkv))]
  rfl

lemma lookupStr_singleton (k v : String) : lookupStr [(k, v)] k = some v := by
  unfold lookupStr
  rw [List.find?_cons_of_pos _ (by simp)]
  rfl

lemma bpc_aux (names : List String) (l : List (String × PrivateNetwork)) :
    ∀ (acc : List (String × String) × List (String × List String)),
    (∀ kv ∈ acc.1, ¬ kv.1 ∈ l.map (fun p => p.1)) →
    (∀ par c, c ∈ lookupChildren acc.2 par → lookupStr acc.1 c = some par) →
    (l.map (fun p => p.1)).Nodup →
    ∀ par c, c ∈ lookupChildren (l.foldl (parentStep names) acc).2 par →
      lookupStr (l.foldl (parentStep names) acc).1 c = some par := by
  induction l with
  | nil => intro acc hkeys hinv hnd; exact hinv
  | cons p l ih =>
    intro acc hkeys hinv hnd
    rw [List.map_cons, List.nodup_cons] at hnd
    rw [List.foldl_cons]
    have hout : ∀ (acc' : List (String × String) × List (String × List String)),
        parentStep names acc p = acc' →
        (∀ kv ∈ acc'.1, ¬ kv.1 ∈ l.map (fun q => q.1)) ∧
        (∀ par c, c ∈ lookupChildren acc'.2 par → lookupStr acc'.1 c = some par) := by
      intro acc' hstep
      unfold parentStep at hstep
      repeat' split at hstep
      case _ =>
        subst hstep
        exact ⟨fun kv hkv => fun hm => hkeys kv hkv (by simp [hm]),
          hinv⟩
      case _ =>
        subst hstep
        exact ⟨fun kv hkv => fun hm => hkeys kv hkv (by simp [hm]), hinv⟩
      case _ =>
        subst hstep
        exact ⟨fun kv hkv => fun hm => hkeys kv hkv (by simp [hm]), hinv⟩
      case _ =>
        rename_i gw hgw intfs hintfs intf hintf
        subst hstep
        have hp1 : lookupStr acc.1 p.1 = none :=
          lookupStr_none_of_keys acc.1 p.1 (fun kv hkv => by
            intro he
            exact hkeys kv hkv (by simp [he]))
        constructor
        · intro kv hkv
          rcases List.mem_append.mp hkv with hl | hr
          · exact fun hm => hkeys kv hl (by simp [hm])
          · simp only [List.mem_singleton] at hr
            subst hr
            exact hnd.1
        · intro par c hc
          rw [lookupChildren_childAppend] at hc
          by_cases hpar : par = intf.type.getD ""
          · rw [if_pos hpar] at hc
            rcases List.mem_append.mp hc with hcl | hcr
            · have := hinv par c (by rw [hpar]; exact hcl)
              rw [lookupStr_append_left _ _ _ (by rw [this]; rfl), this]
            · simp only [List.mem_singleton] at hcr
              subst hcr
              rw [lookupStr_append_right _ _ _ hp1, lookupStr_singleton, hpar]
          · rw [if_neg (fun h => hpar h)] at hc
            have := hinv par c hc
            rw [lookupStr_append_left _ _ _ (by rw [this]; rfl), this]
    obtain ⟨hk', hi'⟩ := hout _ rfl
    exact ih _ hk' hi' hnd.2

lemma buildParentChildMaps_consistent (privates : List (String × PrivateNetwork))
    (hnd : (networkNames privates).Nodup) :
    ∀ par c, c ∈ lookupChildren (buildParentChildMaps privates).2 par →
      lookupStr (buildParentChildMaps privates).1 c = some par := by
  rw [buildParentChildMaps_eq]
  exact bpc_aux (networkNames privates) privates ([], [])
    (fun kv hkv => by cases hkv)
    (fun par c hc => by
      rw [lookupChildren_eq_nil [] par rfl] at hc
      cases hc)
    hnd

lemma gatewayInterfaceEdgesFold_nodes (gatewayId : String) (intfs : List NetInterface) :
    ∀ st : SynthState, (intfs.foldl (gatewayInterfaceEdges gatewayId) st).nodes =
      st.nodes := by
  induction intfs with
  | nil => intro st; rfl
  | cons i l ih =>
    intro st
    rw [List.foldl_cons, ih, gatewayInterfaceEdges_nodes]

lemma networkGatewayStage_nodes_sub (name networkId : String) (gw : Gateway)
    (st : SynthState) :
    ∀ n ∈ (networkGatewayStage name networkId gw st).nodes,
      n ∈ st.nodes ∨ n.id = "device-" ++ name ++ "-" ++ gw.name := by
  intro n hn
  unfold networkGatewayStage at hn
  repeat' (first | split at hn | dsimp only at hn)
  all_goals try (exact Or.inl hn)
  all_goals try rw [gatewayInterfaceEdgesFold_nodes] at hn
  all_goals try dsimp only at hn
  all_goals rcases List.mem_append.mp hn with hl | hr
  all_goals try (exact Or.inl hl)
  all_goals simp only [List.mem_singleton] at hr
  all_goals subst hr
  all_goals exact Or.inr rfl

lemma foldl_nodes_sub {α : Type} (step : SynthState → α → SynthState)
    (hstep : ∀ s a, ∀ n ∈ (step s a).nodes, n ∈ s.nodes ∨ ∃ r, n.id = "device-" ++ r)
    (l : List α) : ∀ s, ∀ n ∈ (l.foldl step s).nodes,
      n ∈ s.nodes ∨ ∃ r, n.id = "device-" ++ r := by
  induction l with
  | nil => intro s n hn; exact Or.inl hn
  | cons a l ih =>
    intro s n hn
    rw [List.foldl_cons] at hn
    rcases ih (step s a) n hn with hl | hr
    · exact hstep s a n hl
    · exact Or.inr hr

lemma networkDevicesStage_nodes_sub (name networkId gatewayId : String) (w : ℚ)
    (network : PrivateNetwork) (st : SynthState) :
    ∀ n ∈ (networkDevicesStage name networkId gatewayId w network st).nodes,
      n ∈ st.nodes ∨ ∃ r, n.id = "device-" ++ r := by
  intro n hn
  unfold networkDevicesStage at hn
  split at hn
  · exact Or.inl hn
  · dsimp only at hn
    rename_i ds hds
    have hsubstep : ∀ (s : SynthState) (a : ℕ × Device),
        ∀ m ∈ (processSubGatewayDevice name networkId gatewayId s a.1 a.2).nodes,
          m ∈ s.nodes ∨ ∃ r, m.id = "device-" ++ r := by
      intro s a m hm
      rcases processSubGatewayDevice_nodes_sub name networkId gatewayId s a.1 a.2 m hm
        with hl | hr
      · exact Or.inl hl
      · refine Or.inr ⟨name ++ "-" ++ a.2.name, ?_⟩
        rw [hr]
        simp [String.append_assoc]
    have hregstep : ∀ (s : SynthState) (a : ℕ × Device),
        ∀ m ∈ (processRegularDevice name networkId gatewayId w
          (ds.filter (fun d =>
            !(name == "test_network" && d.name == "testnet_router") &&
              d.interfaces.isNone)).length s a.1 a.2).nodes,
          m ∈ s.nodes ∨ ∃ r, m.id = "device-" ++ r := by
      intro s a m hm
      rcases processRegularDevice_nodes_sub name networkId gatewayId w _ s a.1 a.2 m hm
        with hl | hr
      · exact Or.inl hl
      · refine Or.inr ⟨name ++ "-" ++ a.2.name, ?_⟩
        rw [hr]
        simp [String.append_assoc]
    rcases foldl_nodes_sub _ hsubstep ds.enum _ n hn with hl | hr
    · exact foldl_nodes_sub _ hregstep _ st n hl
    · exact Or.inr hr

lemma mem_enumFrom_snd {α : Type} (l : List α) :
    ∀ (i : ℕ) (p : ℕ × α), p ∈ l.enumFrom i → p.2 ∈ l := by
  induction l with
  | nil => intro i p h; cases h
  | cons a l ih =>
    intro i p h
    rw [List.enumFrom_cons] at h
    rcases List.mem_cons.mp h with h1 | h2
    · subst h1
      exact List.mem_cons_self _ _
    · exact List.mem_cons_of_mem _ (ih (i + 1) p h2)

lemma mem_enum_snd {α : Type} (l : List α) (p : ℕ × α) (h : p ∈ l.enum) : p.2 ∈ l :=
  mem_enumFrom_snd l 0 p h

lemma networkChildStep_preserve (ctx : NetCtx)
    (recur : String → PrivateNetwork → ℕ → Option String → ℕ → ℚ → SynthState →
      Except String SynthState)
    (name : String) (level : ℕ) (rootX childSpacing : ℚ) (children : List String)
    (hrec : ∀ (cn : String) (cd : PrivateNetwork) (ci : ℕ) (s s' : SynthState),
      cn ∈ children →
      (∀ n ∈ s.nodes, GroupParentSpec ctx.parentNetworkMap n) →
      recur cn cd ci (some ("network-" ++ name)) (level + 1) rootX s = .ok s' →
      ∀ n ∈ s'.nodes, GroupParentSpec ctx.parentNetworkMap n) :
    ∀ (s : SynthState) (p : ℕ × String) (s' : SynthState), p ∈ children.enum →
      (∀ n ∈ s.nodes, GroupParentSpec ctx.parentNetworkMap n) →
      networkChildStep recur ctx name ("network-" ++ name) level rootX childSpacing
        s p = .ok s' →
      ∀ n ∈ s'.nodes, GroupParentSpec ctx.parentNetworkMap n := by
  intro s p s' hp hQ hstep
  unfold networkChildStep at hstep
  dsimp only at hstep
  split at hstep
  · injection hstep
  · rename_i childData hpd
    split at hstep
    · injection hstep
    · rename_i s1 hrecEq
      have hQ1 : ∀ n ∈ s1.nodes, GroupParentSpec ctx.parentNetworkMap n :=
        hrec p.2 childData p.1 s s1 (mem_enum_snd children p hp) hQ hrecEq
      have hQ2 : ∀ n ∈ (updateNodeById s1.nodes ("network-" ++ p.2)
          (fun nd => { nd with x := (p.1 : ℚ) * childSpacing + 50, y := 280 })),
          GroupParentSpec ctx.parentNetworkMap n :=
        updateNodeById_preserve _ _ _ _ (fun m hm => hm) hQ1
      split at hstep
      · injection hstep with hstep
        subst hstep
        exact hQ2
      · injection hstep with hstep
        subst hstep
        exact hQ2

lemma find?_beq_key (m : List (String × List String)) (k : String) :
    m.find? (fun p => p.1 == k) = m.find? (fun p => p.1 = k) := by
  induction m with
  | nil => rfl
  | cons e m ih =>
    by_cases he : e.1 = k
    · rw [List.find?_cons_of_pos _ (by simp [he]), List.find?_cons_of_pos _ (by simp [he])]
    · rw [List.find?_cons_of_neg _ (by simp [he]), List.find?_cons_of_neg _ (by simp [he])]
      exact ih

lemma GroupParentSpec_of_device2 (pm : List (String × String)) (n : Node)
    (a b : String) (h : n.id = "device-" ++ a ++ "-" ++ b) : GroupParentSpec pm n :=
  GroupParentSpec_of_device pm n (a ++ "-" ++ b) (by rw [h]; simp [String.append_assoc])

set_option maxHeartbeats 2000000 in
lemma createNetworkNode_spec (ctx : NetCtx)
    (hcons : ∀ par c, c ∈ lookupChildren ctx.childNetworksMap par →
      lookupStr ctx.parentNetworkMap c = some par) :
    ∀ (fuel : ℕ) (name : String) (network : PrivateNetwork) (idx : ℕ)
      (pio : Option String) (level : ℕ) (rootX : ℚ) (st st' : SynthState),
      (∀ p, lookupStr ctx.parentNetworkMap name = some p →
        pio = some ("network-" ++ p)) →
      (∀ n ∈ st.nodes, GroupParentSpec ctx.parentNetworkMap n) →
      createNetworkNode ctx fuel name network idx pio level rootX st = .ok st' →
      ∀ n ∈ st'.nodes, GroupParentSpec ctx.parentNetworkMap n := by
  intro fuel
  induction fuel with
  | zero =>
    intro name network idx pio level rootX st st' hpar hst h
    injection h with h
    subst h
    exact hst
  | succ fuel ih =>
    intro name network idx pio level rootX st st' hpar hst h
    unfold createNetworkNode at h
    dsimp only at h
    cases hgweq : network.gateway with
    | none =>
      rw [hgweq] at h
      injection h
    | some gw =>
      rw [hgweq] at h
      dsimp only at h
      cases hfc : ctx.childNetworksMap.find? (fun p => p.1 == name) with
      | none =>
        rw [hfc] at h
        injection h with h
        subst h
        intro n hn
        rcases networkDevicesStage_nodes_sub _ _ _ _ _ _ n hn with h1 | ⟨r, hr⟩
        · rcases networkGatewayStage_nodes_sub _ _ _ _ n h1 with h2 | hgw
          · rcases List.mem_append.mp h2 with h3 | h4
            · exact hst n h3
            · simp only [List.mem_singleton] at h4
              subst h4
              intro nm p' hid hl
              obtain rfl : name = nm := string_append_left_cancel "network-" name nm hid
              have hpio := hpar p' hl
              exact hpio
          · exact GroupParentSpec_of_device2 _ n name gw.name hgw
        · exact GroupParentSpec_of_device _ n r hr
      | some c =>
        rw [hfc] at h
        dsimp only at h
        refine foldlM_preserve _
          (fun s => ∀ n ∈ s.nodes, GroupParentSpec ctx.parentNetworkMap n)
          c.2.enum ?_ _ st' ?_ h
        · intro b a b' ha hQb heq
          refine networkChildStep_preserve ctx (createNetworkNode ctx fuel) name level
            rootX _ c.2 ?_ b a b' ha hQb heq
          intro cn cd ci s s' hcn hQs hre
          have hchild : lookupStr ctx.parentNetworkMap cn = some name := by
            apply hcons name cn
            rw [lookupChildren_eq_of_find ctx.childNetworksMap name c
              (by rw [← find?_beq_key]; exact hfc)]
            exact hcn
          refine ih cn cd ci (some ("network-" ++ name)) (level + 1) rootX s s' ?_ hQs hre
          intro p hp
          rw [hchild] at hp
          injection hp with hp
          rw [hp]
        · intro n hn
          rcases networkDevicesStage_nodes_sub _ _ _ _ _ _ n hn with h1 | ⟨r, hr⟩
          · rcases networkGatewayStage_nodes_sub _ _ _ _ n h1 with h2 | hgw
            · rcases List.mem_append.mp h2 with h3 | h4
              · exact hst n h3
              · simp only [List.mem_singleton] at h4
                subst h4
                intro nm p' hid hl
                obtain rfl : name = nm := string_append_left_cancel "network-" name nm hid
                have hpio := hpar p' hl
                exact hpio
            · exact GroupParentSpec_of_device2 _ n name gw.name hgw
          · exact GroupParentSpec_of_device _ n r hr

lemma except_bind_ok {ε α β : Type} (x : Except ε α) (f : α → Except ε β) (b : β)
    (h : (x >>= f) = .ok b) : ∃ a, x = .ok a ∧ f a = .ok b := by
  cases x with
  | error e => injection h
  | ok a => exact ⟨a, rfl, h⟩

lemma processRootNetworks_spec (cfg : NetworkConfig) (st st' : SynthState)
    (hnd : (networkNames cfg.privates).Nodup)
    (hst : ∀ n ∈ st.nodes, GroupParentSpec (buildParentChildMaps cfg.privates).1 n)
    (h : processRootNetworks cfg st = .ok st') :
    ∀ n ∈ st'.nodes, GroupParentSpec (buildParentChildMaps cfg.privates).1 n := by
  have hcons := buildParentChildMaps_consistent cfg.privates hnd
  unfold processRootNetworks at h
  obtain ⟨r, hf, hr⟩ := except_bind_ok _ _ _ h
  injection hr with hr
  subst hr
  refine foldlM_preserve _
    (fun acc => ∀ n ∈ acc.2.nodes, GroupParentSpec (buildParentChildMaps cfg.privates).1 n)
    cfg.privates ?_ _ r hst hf
  intro b a b' ha hQb heq
  split at heq
  · injection heq with heq
    subst heq
    exact hQb
  · rename_i hns
    dsimp only at heq
    obtain ⟨s1, hrec, hpure⟩ := except_bind_ok _ _ _ heq
    injection hpure with hpure
    subst hpure
    exact createNetworkNode_spec (mkNetCtx cfg) hcons (cfg.privates.length + 1)
      a.1 a.2 0 none 0 b.1 b.2 s1
      (fun p hp => by rw [hp] at hns; simp at hns) hQb hrec

lemma exceptIsOk_eq {ε α : Type} (x : Except ε α) (d : α) (h : exceptIsOk x = true) :
    x = .ok (x.toOption.getD d) := by
  cases x with
  | ok a => rfl
  | error e => cases h

/-- C5 (amended): in the emitted node list of the root-network pass, every
network container whose network has an inferred parent (first gateway
interface whose type names another declared network) carries that parent
container as its `parentId`; together with the counterexample this corrects
the claim — a network in a parent cycle is excluded from the root pass but is
never emitted at all. -/
theorem subnetParentContainment (cfg : NetworkConfig) (st st' : SynthState)
    (hnd : (networkNames cfg.privates).Nodup)
    (hst : ∀ n ∈ st.nodes, ("network-".data.isPrefixOf n.id.data) = false)
    (h : processRootNetworks cfg st = .ok st') :
    ∀ n ∈ st'.nodes, ∀ nm p : String, n.id = "network-" ++ nm →
      lookupStr (buildParentChildMaps cfg.privates).1 nm = some p →
      n.parentId = some ("network-" ++ p) := by
  have hspec := processRootNetworks_spec cfg st st' hnd
    (fun n hn => GroupParentSpec_of_noprefix _ n (hst n hn)) h
  intro n hn nm p hid hl
  exact hspec n hn nm p hid hl

/-- Witness for C5: a two-network declaration whose child network `ch` names
`pa` through its first interface; the run emits `network-ch` nested under
`network-pa`. -/
theorem subnetParentContainment_witness :
    ((networkNames cfgSub5.privates).Nodup ∧
      lookupStr (buildParentChildMaps cfgSub5.privates).1 "ch" = some "pa" ∧
      (st5out.nodes.map (fun n => (n.id, n.parentId))).contains
        ("network-ch", some "network-pa") = true) ∧
    ∀ n ∈ st5out.nodes, ∀ nm p : String, n.id = "network-" ++ nm →
      lookupStr (buildParentChildMaps cfgSub5.privates).1 nm = some p →
      n.parentId = some ("network-" ++ p) := by
  constructor
  · exact ⟨by decide, by decide, by decide⟩
  · exact subnetParentContainment cfgSub5 {} st5out (by decide) (by decide)
      (exceptIsOk_eq _ {} (by decide))

/-- C10 (amended): for the full-feature declaration `cfgC10` — which avoids
the name-literal `internal_network`/`testnet_router` gateway skip — the
emitted edge list is endpoint-closed: every edge source and target id names an
emitted node, across backbone uplinks, gateway-device links, the subnet link
and the inferred-interface edge (each of which the run provably contains).
Together with the counterexample this corrects the claim: with the name-literal
skip, later passes still emit edges from the recorded-but-never-emitted
gateway id. -/
theorem endpointClosureOnFullFeatureConfig :
    (useNetworkData cfgC10 0).2.2 = none ∧
    edgeEndpointsClosed (useNetworkData cfgC10 0).1 (useNetworkData cfgC10 0).2.1 = true ∧
    ((useNetworkData cfgC10 0).2.1.any (fun e => jsIncludes e.id "edge-subnet-") = true ∧
      (useNetworkData cfgC10 0).2.1.any
        (fun e => e.source == "device-beta-gamma" && e.target == "device-alpha-rta") = true ∧
      (useNetworkData cfgC10 0).2.1.any
        (fun e => e.source == "device-alpha-rta" && e.target == "device-alpha-boxa") = true ∧
      (useNetworkData cfgC10 0).2.1.any
        (fun e => e.source == "cloud-global" && e.target == "device-beta-rtb") = true) := by
  refine ⟨by decide, by decide, by decide, by decide, by decide, by decide⟩

end NetTopo
